import Mathlib

/-
  Verification development for the OAuth / OIDC single-sign-on adapters of
  netmaker (auth/github.go, auth/google.go, auth/oidc.go).

  The three Go files are embedded as state-passing functions over a `World`:
  the two package globals (`auth_provider`, `oidc_verifier`), the state of the
  external collaborators, and the chronological trace of every collaborator
  call and every response written.  Collaborators and libraries whose code is
  not part of the three files are fields of `Env`; theorems quantify over them.
-/

namespace Netmaker.Auth

-- ---------------------------------------------------------------------------
-- Data model
-- ---------------------------------------------------------------------------

/-- The `oauth2.Config` value the init functions assign to `auth_provider`. -/
structure Config where
  RedirectURL : String
  ClientID : String
  ClientSecret : String
  Scopes : List String
  Endpoint : String
deriving DecidableEq, Repr

/-- The `oidc.IDTokenVerifier` built by `provider.Verifier(&oidc.Config{ClientID: clientID})`:
scoped to the issuer it was discovered from and to the client id. -/
structure Verifier where
  Issuer : String
  ClientID : String
deriving DecidableEq, Repr

/-- An `oauth2.Token`: the access token, whether its expiry has passed at the time
it is inspected, and the value of `Extra("id_token")` when that is a string. -/
structure Token where
  AccessToken : String
  expired : Bool
  idToken : Option String
deriving DecidableEq, Repr

/-- The `token.Valid()` check of the oauth2 library: an access token is present and it has not expired. -/
def Token.Valid (t : Token) : Bool :=
  t.AccessToken != "" && !t.expired

/-- A JSON value as seen by a decoder whose targets are string fields: scalars
keep their content, arrays and objects are one constructor (their content
never reaches a string field). -/
inductive JValue
  | null
  | bool (b : Bool)
  | number (n : Int)
  | string (s : String)
  | composite
deriving DecidableEq, Repr

/-- A document handed to `json.Unmarshal`: not valid JSON, the literal null,
a top-level value that is not an object, or an object with its members in
document order. -/
inductive Payload
  | invalid
  | null
  | nonObject
  | object (members : List (String × JValue))
deriving DecidableEq, Repr

/-- Modelled from the spec: the `OAuthUser` record is declared outside the three
adapter files. The spec calls it the canonical identity keyed by `login`
(GitHub) or `email` (Google, OIDC) with an access-token blob; the fields are
the ones the adapters read and write. -/
structure OAuthUser where
  Login : String
  Email : String
  AccessToken : String
deriving DecidableEq, Repr

/-- The local account returned by `logic.GetUser`, with the fields the callbacks
read. -/
structure HostUser where
  UserName : String
  IsAdmin : Bool
  IsSuperAdmin : Bool
deriving DecidableEq, Repr

/-- The `models.UserAuthParams` value passed to `logic.VerifyAuthRequest`. -/
structure UserAuthParams where
  UserName : String
  Password : String
deriving DecidableEq, Repr

/-- The part of an inbound `*http.Request` the adapters read: the `state` and
`code` query values. -/
structure Request where
  state : String
  code : String
deriving DecidableEq, Repr

/-- An outbound HTTP request made for the user-info lookup. -/
structure HttpRequest where
  method : String
  url : String
  authorization : Option String
  timeoutSeconds : Option Nat
deriving DecidableEq, Repr

/-- An HTTP response: its status and what `io.ReadAll(response.Body)` yields. -/
structure HttpResponse where
  StatusCode : Nat
  Body : Except String Payload

/-- A verified `oidc.IDToken`; `Claims` decodes `claims`. -/
structure IDToken where
  claims : Payload
deriving DecidableEq, Repr

/-- The endpoint metadata obtained by OIDC discovery (`oidc.NewProvider`). -/
structure ProviderMeta where
  Issuer : String
  Endpoint : String
deriving DecidableEq, Repr

/-- How a Go call ends: it returns, or it panics. -/
inductive Outcome (α : Type)
  | ret (a : α)
  | panic (msg : String)
deriving DecidableEq, Repr

/-- Everything observable a handler does, in order: collaborator calls (with
what they answered where a later step depends on it) and responses written. -/
inductive Event
  | randomString (n : Nat) (out : String)
  | setState (token : String) (err : Option String)
  | isStateValid (state : String) (value : String) (ok : Bool)
  | isStateCached (state : String) (hit : Bool)
  | discovery (issuer : String)
  | exchange (code : String)
  | httpRequest (req : HttpRequest)
  | body (p : Payload)
  | verifyIDToken (raw : String)
  | claims (p : Payload)
  | getUser (username : String) (found : Option HostUser)
  | addUser (username : String) (sso : Bool) (err : Option String)
  | fetchPassValue (arg : String)
  | verifyAuthRequest (params : UserAuthParams)
  | notConfigured
  | userNotFound
  | userNotAllowed
  | redirect (url : String) (status : Nat)
  | ssoRedirect (provider : String) (jwt : String) (username : String)
deriving DecidableEq, Repr

/-- The collaborators and libraries the adapters call, each an arbitrary
transformer of the external state `σ` (durable state store, local cache, user
store, session issuer, network, random source). -/
structure Env (σ : Type) where
  user_signin_length : Nat
  randomString : Nat → σ → String × σ
  setState : String → σ → Option String × σ
  isStateValid : String → σ → (String × Bool) × σ
  isStateCached : String → σ → Bool × σ
  getUser : String → σ → Except String HostUser × σ
  addUser : String → Bool → σ → Option String × σ
  fetchPassValue : String → σ → Except String String × σ
  verifyAuthRequest : UserAuthParams → σ → Except String String × σ
  authCodeURL : Config → String → String
  exchange : Config → String → σ → Outcome (Except String Token) × σ
  marshalToken : Token → Except String String
  httpDo : HttpRequest → σ → Outcome (Except String HttpResponse) × σ
  newProvider : String → σ → Except String ProviderMeta × σ
  verify : Option Verifier → String → σ → Outcome (Except String IDToken) × σ

/-- The package state: the collaborators, the two globals, and the trace. -/
structure World (σ : Type) where
  ext : σ
  auth_provider : Option Config
  oidc_verifier : Option Verifier
  trace : List Event

variable {σ : Type}

/-- Record an event at the end of the trace. -/
def World.emit (w : World σ) (e : Event) : World σ :=
  { w with trace := w.trace ++ [e] }

/-- Replace the collaborators state. -/
def World.withExt (w : World σ) (s : σ) : World σ :=
  { w with ext := s }

/-- The message of a nil-pointer dereference. -/
def nilDeref : String :=
  "runtime error: invalid memory address or nil pointer dereference"

-- ---------------------------------------------------------------------------
-- encoding/json into an OAuthUser
-- ---------------------------------------------------------------------------

/-- Case folding of a member name (ASCII), as the decoder matches names
without regard to case. -/
def foldKey (k : String) : List Char :=
  k.data.map Char.toLower

/-- The name of a JSON value kind in a decoding error. -/
def JValue.kind : JValue → String
  | .null => "null"
  | .bool _ => "bool"
  | .number _ => "number"
  | .string _ => "string"
  | .composite => "object"

/-- Store one value into a string field: a string is assigned, null leaves the
field alone, anything else is a type error and leaves the field alone. -/
def storeString (field : String) (old : String) (v : JValue) : String × Option String :=
  match v with
  | .string s => (s, none)
  | .null => (old, none)
  | v => (old, some ("json: cannot unmarshal " ++ v.kind ++ " into Go struct field OAuthUser." ++ field ++ " of type string"))

/-- The first error wins, later ones are dropped. -/
def saveError (saved : Option String) (e : Option String) : Option String :=
  match saved with
  | some s => some s
  | none => e

/-- Decode one object member into the record; unknown names are skipped. The
member names are the lower-cased field names `login`, `email`, `accesstoken`,
matched without regard to case. -/
def storeMember (acc : OAuthUser × Option String) (m : String × JValue) : OAuthUser × Option String :=
  if foldKey m.1 = "login".data then
    ({ acc.1 with Login := (storeString "login" acc.1.Login m.2).1 },
      saveError acc.2 (storeString "login" acc.1.Login m.2).2)
  else if foldKey m.1 = "email".data then
    ({ acc.1 with Email := (storeString "email" acc.1.Email m.2).1 },
      saveError acc.2 (storeString "email" acc.1.Email m.2).2)
  else if foldKey m.1 = "accesstoken".data then
    ({ acc.1 with AccessToken := (storeString "accesstoken" acc.1.AccessToken m.2).1 },
      saveError acc.2 (storeString "accesstoken" acc.1.AccessToken m.2).2)
  else acc

/-- The `json.Unmarshal(contents, userInfo)` call for an `*OAuthUser` target:
the record after the call and the error returned. A syntax error or a
non-object leaves the record untouched; null is accepted and changes nothing;
an object is decoded member by member, a member of the wrong type is skipped,
decoding goes on, and the first such error is returned at the end. -/
def unmarshalOAuthUser (contents : Payload) (u : OAuthUser) : OAuthUser × Option String :=
  match contents with
  | .invalid => (u, some "invalid character looking for beginning of value")
  | .null => (u, none)
  | .nonObject => (u, some "json: cannot unmarshal value into Go value of type auth.OAuthUser")
  | .object members => members.foldl storeMember (u, none)

-- ---------------------------------------------------------------------------
-- Collaborator calls: run the collaborator on the external state, log the call
-- ---------------------------------------------------------------------------

/-- The call `logic.RandomString(n)`. -/
def randomString (env : Env σ) (n : Nat) (w : World σ) : String × World σ :=
  match env.randomString n w.ext with
  | (s, x) => (s, (w.withExt x).emit (.randomString n s))

/-- The call `logic.SetState(token)`. -/
def setState (env : Env σ) (token : String) (w : World σ) : Option String × World σ :=
  match env.setState token w.ext with
  | (err, x) => (err, (w.withExt x).emit (.setState token err))

/-- The call `logic.IsStateValid(state)`. -/
def isStateValid (env : Env σ) (state : String) (w : World σ) : (String × Bool) × World σ :=
  match env.isStateValid state w.ext with
  | (r, x) => (r, (w.withExt x).emit (.isStateValid state r.1 r.2))

/-- The call `isStateCached(state)`. -/
def isStateCached (env : Env σ) (state : String) (w : World σ) : Bool × World σ :=
  match env.isStateCached state w.ext with
  | (hit, x) => (hit, (w.withExt x).emit (.isStateCached state hit))

/-- The call `logic.GetUser(username)`. -/
def getUser (env : Env σ) (username : String) (w : World σ) : Except String HostUser × World σ :=
  match env.getUser username w.ext with
  | (r, x) => (r, (w.withExt x).emit (.getUser username r.toOption))

/-- The call `addUser(username, sso)`. -/
def addUser (env : Env σ) (username : String) (sso : Bool) (w : World σ) : Option String × World σ :=
  match env.addUser username sso w.ext with
  | (err, x) => (err, (w.withExt x).emit (.addUser username sso err))

/-- The call `fetchPassValue(arg)`. -/
def fetchPassValue (env : Env σ) (arg : String) (w : World σ) : Except String String × World σ :=
  match env.fetchPassValue arg w.ext with
  | (r, x) => (r, (w.withExt x).emit (.fetchPassValue arg))

/-- The call `logic.VerifyAuthRequest(authRequest)`. -/
def verifyAuthRequest (env : Env σ) (p : UserAuthParams) (w : World σ) : Except String String × World σ :=
  match env.verifyAuthRequest p w.ext with
  | (r, x) => (r, (w.withExt x).emit (.verifyAuthRequest p))

/-- The call `auth_provider.Exchange(ctx, code)`: the method is entered also on a
nil `auth_provider` and panics there on its first field access. -/
def exchange (env : Env σ) (code : String) (w : World σ) : Outcome (Except String Token) × World σ :=
  match w.auth_provider with
  | none => (.panic nilDeref, w.emit (.exchange code))
  | some cfg =>
    match env.exchange cfg code w.ext with
    | (r, x) => (r, (w.withExt x).emit (.exchange code))

/-- The call `httpClient.Do(httpReq)` / `client.Get(url)`. -/
def httpDo (env : Env σ) (req : HttpRequest) (w : World σ) : Outcome (Except String HttpResponse) × World σ :=
  match env.httpDo req w.ext with
  | (r, x) => (r, (w.withExt x).emit (.httpRequest req))

/-- The call `io.ReadAll(response.Body)`; the bytes read are logged. -/
def readAll (response : HttpResponse) (w : World σ) : Except String Payload × World σ :=
  (response.Body,
    match response.Body with
    | .ok contents => w.emit (.body contents)
    | .error _ => w)

/-- The call `oidc_verifier.Verify(ctx, rawIDToken)`. The library parses the raw
token before it touches the verifier: on a nil `oidc_verifier` the call can
still return an error for a token it cannot parse, and otherwise panics on the
first access to the verifier. -/
def verifyIDToken (env : Env σ) (raw : String) (w : World σ) : Outcome (Except String IDToken) × World σ :=
  match w.oidc_verifier with
  | none =>
    ((match (env.verify none raw w.ext).1 with
      | .ret (.error e) => .ret (.error e)
      | _ => .panic nilDeref),
      (w.withExt (env.verify none raw w.ext).2).emit (.verifyIDToken raw))
  | some v =>
    match env.verify (some v) raw w.ext with
    | (r, x) => (r, (w.withExt x).emit (.verifyIDToken raw))

/-- The call `idToken.Claims(u)`: decodes the verified claims into the record. -/
def claims (idToken : IDToken) (u : OAuthUser) (w : World σ) : (OAuthUser × Option String) × World σ :=
  (unmarshalOAuthUser idToken.claims u, w.emit (.claims idToken.claims))

/-- Modelled from the spec: the helper `getStateAndCode(r)` is declared outside
the adapter files; the spec has the callback extract `state` and `code` from
the query string. -/
def getStateAndCode (r : Request) : String × String :=
  (r.state, r.code)

/-- Modelled from the spec: the response writer `handleOauthNotConfigured(w)` is
declared outside the adapter files; it writes the "not configured" error
response. -/
def handleOauthNotConfigured (w : World σ) : World σ := w.emit .notConfigured

/-- Modelled from the spec: the response writer `handleOauthUserNotFound(w)` is
declared outside the adapter files; it writes the user-lookup-failed response. -/
def handleOauthUserNotFound (w : World σ) : World σ := w.emit .userNotFound

/-- Modelled from the spec: the response writer `handleOauthUserNotAllowed(w)` is
declared outside the adapter files; it writes the explicit "not allowed"
response. -/
def handleOauthUserNotAllowed (w : World σ) : World σ := w.emit .userNotAllowed

/-- The call `http.Redirect(w, r, url, status)`. -/
def httpRedirect (url : String) (status : Nat) (w : World σ) : World σ :=
  w.emit (.redirect url status)

/-- Modelled from the spec: `performSSORedirect(provider, w, r, jwt, username)` is
declared outside the adapter files; it writes the final redirect carrying the
provider name, the session token and the username. -/
def performSSORedirect (provider jwt username : String) (w : World σ) : World σ :=
  w.emit (.ssoRedirect provider jwt username)

/-- The constant `http.StatusTemporaryRedirect`. -/
def StatusTemporaryRedirect : Nat := 307

/-- The condition `(!isValid || state != oauth_state_string) && !isStateCached(state)`
that opens each of the three getUserInfo functions, with the short-circuit
evaluation of `&&`: the cache is asked only when the store did not confirm the
state. -/
def invalidOauthState (env : Env σ) (state : String) (w : World σ) : Bool × World σ :=
  match isStateValid env state w with
  | ((oauth_state_string, isValid), w1) =>
    if !isValid || state != oauth_state_string then
      match isStateCached env state w1 with
      | (hit, w2) => (!hit, w2)
    else (false, w1)

-- ---------------------------------------------------------------------------
-- auth/github.go
-- ---------------------------------------------------------------------------

/-- The function `initGithub`. -/
def initGithub (redirectURL clientID clientSecret : String) (w : World σ) : World σ :=
  { w with
    auth_provider := some (Config.mk redirectURL clientID clientSecret [] "github.Endpoint") }

/-- The function `handleGithubLogin`. -/
def handleGithubLogin (env : Env σ) (_r : Request) (w : World σ) : Outcome Unit × World σ :=
  match randomString env env.user_signin_length w with
  | (oauth_state_string, w1) =>
    match w1.auth_provider with
    | none => (.ret (), handleOauthNotConfigured w1)
    | some cfg =>
      match setState env oauth_state_string w1 with
      | (some _, w2) => (.ret (), handleOauthNotConfigured w2)
      | (none, w2) =>
        (.ret (), httpRedirect (env.authCodeURL cfg oauth_state_string) StatusTemporaryRedirect w2)

/-- The function `getGithubUserInfo`; the result is the Go pair `(*OAuthUser, error)`.
`http.NewRequest` is given a constant method and URL and cannot fail, so its
error branch is not a path of the embedding. -/
def getGithubUserInfo (env : Env σ) (state code : String) (w : World σ) :
    Outcome (Option OAuthUser × Option String) × World σ :=
  match invalidOauthState env state w with
  | (true, w1) => (.ret (none, some "invalid oauth state"), w1)
  | (false, w1) =>
    match exchange env code w1 with
    | (.panic p, w2) => (.panic p, w2)
    | (.ret (.error err), w2) => (.ret (none, some ("code exchange failed: " ++ err)), w2)
    | (.ret (.ok token), w2) =>
      if !token.Valid then
        (.ret (none, some "GitHub code exchange yielded invalid token"), w2)
      else
        match env.marshalToken token with
        | .error err => (.ret (none, some ("failed to convert token to json: " ++ err)), w2)
        | .ok data =>
          match httpDo env
              { method := "GET", url := "https://api.github.com/user",
                authorization := some ("token " ++ token.AccessToken), timeoutSeconds := none } w2 with
          | (.panic p, w3) => (.panic p, w3)
          | (.ret (.error err), w3) => (.ret (none, some ("failed getting user info: " ++ err)), w3)
          | (.ret (.ok response), w3) =>
            match readAll response w3 with
            | (.error err, w4) => (.ret (none, some ("failed reading response body: " ++ err)), w4)
            | (.ok contents, w4) =>
              match unmarshalOAuthUser contents { Login := "", Email := "", AccessToken := "" } with
              | (_, some err) =>
                (.ret (none, some ("failed parsing email from response data: " ++ err)), w4)
              | (userInfo, none) =>
                (.ret (some { userInfo with AccessToken := data }, none), w4)

/-- The function `handleGithubCallback`. -/
def handleGithubCallback (env : Env σ) (r : Request) (w : World σ) : Outcome Unit × World σ :=
  match getStateAndCode r with
  | (rState, rCode) =>
    match getGithubUserInfo env rState rCode w with
    | (.panic p, w1) => (.panic p, w1)
    | (.ret (_, some _), w1) => (.ret (), handleOauthNotConfigured w1)
    | (.ret (none, none), w1) => (.panic nilDeref, w1)
    | (.ret (some content, none), w1) =>
      -- the code after the `if err != nil` block that may create the account
      let afterLookup := fun (res : Except String HostUser) (w5 : World σ) =>
        match res with
        | .error _ => (Outcome.ret (), handleOauthUserNotFound w5)
        | .ok user =>
          if !(user.IsSuperAdmin || user.IsAdmin) then
            (.ret (), handleOauthUserNotAllowed w5)
          else
            match fetchPassValue env "" w5 with
            | (.error _, w6) => (.ret (), w6)
            | (.ok newPass, w6) =>
              match verifyAuthRequest env { UserName := content.Login, Password := newPass } w6 with
              | (.error _, w7) => (.ret (), w7)
              | (.ok jwt, w7) => (.ret (), performSSORedirect "GitHub" jwt content.Login w7)
      match getUser env content.Login w1 with
      | (.ok user, w2) => afterLookup (.ok user) w2
      | (.error _, w2) =>
        match addUser env content.Login true w2 with
        | (some _, w3) => (.ret (), w3)
        | (none, w3) =>
          match getUser env content.Login w3 with
          | (res, w4) => afterLookup res w4

/-- The function `verifyGithubUser`. -/
def verifyGithubUser (token : Token) : Bool := token.Valid

-- ---------------------------------------------------------------------------
-- auth/google.go
-- ---------------------------------------------------------------------------

/-- The function `initGoogle`. -/
def initGoogle (redirectURL clientID clientSecret : String) (w : World σ) : World σ :=
  { w with
    auth_provider := some (Config.mk redirectURL clientID clientSecret
      ["https://www.googleapis.com/auth/userinfo.email"] "google.Endpoint") }

/-- The function `handleGoogleLogin`. -/
def handleGoogleLogin (env : Env σ) (_r : Request) (w : World σ) : Outcome Unit × World σ :=
  match randomString env env.user_signin_length w with
  | (oauth_state_string, w1) =>
    match w1.auth_provider with
    | none => (.ret (), handleOauthNotConfigured w1)
    | some cfg =>
      match setState env oauth_state_string w1 with
      | (some _, w2) => (.ret (), handleOauthNotConfigured w2)
      | (none, w2) =>
        (.ret (), httpRedirect (env.authCodeURL cfg oauth_state_string) StatusTemporaryRedirect w2)

/-- The function `getGoogleUserInfo`; the result is the Go pair `(*OAuthUser, error)`. -/
def getGoogleUserInfo (env : Env σ) (state code : String) (w : World σ) :
    Outcome (Option OAuthUser × Option String) × World σ :=
  match invalidOauthState env state w with
  | (true, w1) => (.ret (none, some "invalid oauth state"), w1)
  | (false, w1) =>
    match exchange env code w1 with
    | (.panic p, w2) => (.panic p, w2)
    | (.ret (.error err), w2) => (.ret (none, some ("code exchange failed: " ++ err)), w2)
    | (.ret (.ok token), w2) =>
      match env.marshalToken token with
      | .error err => (.ret (none, some ("failed to convert token to json: " ++ err)), w2)
      | .ok data =>
        match httpDo env
            { method := "GET",
              url := "https://www.googleapis.com/oauth2/v2/userinfo?access_token=" ++ token.AccessToken,
              authorization := none, timeoutSeconds := some 30 } w2 with
        | (.panic p, w3) => (.panic p, w3)
        | (.ret (.error err), w3) => (.ret (none, some ("failed getting user info: " ++ err)), w3)
        | (.ret (.ok response), w3) =>
          match readAll response w3 with
          | (.error err, w4) => (.ret (none, some ("failed reading response body: " ++ err)), w4)
          | (.ok contents, w4) =>
            match unmarshalOAuthUser contents { Login := "", Email := "", AccessToken := "" } with
            | (_, some err) =>
              (.ret (none, some ("failed parsing email from response data: " ++ err)), w4)
            | (userInfo, none) =>
              (.ret (some { userInfo with AccessToken := data }, none), w4)

/-- The function `handleGoogleCallback`. The first lookup only decides whether
the account is created; the account used is the one the second lookup returns. -/
def handleGoogleCallback (env : Env σ) (r : Request) (w : World σ) : Outcome Unit × World σ :=
  match getStateAndCode r with
  | (rState, rCode) =>
    match getGoogleUserInfo env rState rCode w with
    | (.panic p, w1) => (.panic p, w1)
    | (.ret (_, some _), w1) => (.ret (), handleOauthNotConfigured w1)
    | (.ret (none, none), w1) => (.panic nilDeref, w1)
    | (.ret (some content, none), w1) =>
      -- the code after the `if err != nil` block that may create the account
      let afterCreate := fun (w4 : World σ) =>
        match getUser env content.Email w4 with
        | (.error _, w5) => (Outcome.ret (), handleOauthUserNotFound w5)
        | (.ok user, w5) =>
          if !(user.IsSuperAdmin || user.IsAdmin) then
            (.ret (), handleOauthUserNotAllowed w5)
          else
            match fetchPassValue env "" w5 with
            | (.error _, w6) => (.ret (), w6)
            | (.ok newPass, w6) =>
              match verifyAuthRequest env { UserName := content.Email, Password := newPass } w6 with
              | (.error _, w7) => (.ret (), w7)
              | (.ok jwt, w7) => (.ret (), performSSORedirect "Google" jwt content.Email w7)
      match getUser env content.Email w1 with
      | (.ok _, w2) => afterCreate w2
      | (.error _, w2) =>
        match addUser env content.Email true w2 with
        | (some _, w3) => (.ret (), w3)
        | (none, w3) => afterCreate w3

/-- The function `verifyGoogleUser`. -/
def verifyGoogleUser (token : Token) : Bool := token.Valid

-- ---------------------------------------------------------------------------
-- auth/oidc.go
-- ---------------------------------------------------------------------------

/-- The constant `OIDC_TIMEOUT`, in seconds. -/
def OIDC_TIMEOUT : Nat := 10

/-- The call `oidc.NewProvider(ctx, issuer)`: the discovery round trip. -/
def newProvider (env : Env σ) (issuer : String) (w : World σ) : Except String ProviderMeta × World σ :=
  match env.newProvider issuer w.ext with
  | (r, x) => (r, (w.withExt x).emit (.discovery issuer))

/-- The function `initOIDC`: on a failed discovery it returns before either
global is assigned. -/
def initOIDC (env : Env σ) (redirectURL clientID clientSecret issuer : String) (w : World σ) :
    World σ :=
  match newProvider env issuer w with
  | (.error _, w1) => w1
  | (.ok provider, w1) =>
    { w1 with
      oidc_verifier := some (Verifier.mk provider.Issuer clientID)
      auth_provider := some (Config.mk redirectURL clientID clientSecret
        ["openid", "profile", "email"] provider.Endpoint) }

/-- The function `handleOIDCLogin`. -/
def handleOIDCLogin (env : Env σ) (_r : Request) (w : World σ) : Outcome Unit × World σ :=
  match randomString env env.user_signin_length w with
  | (oauth_state_string, w1) =>
    match w1.auth_provider with
    | none => (.ret (), handleOauthNotConfigured w1)
    | some cfg =>
      match setState env oauth_state_string w1 with
      | (some _, w2) => (.ret (), handleOauthNotConfigured w2)
      | (none, w2) =>
        (.ret (), httpRedirect (env.authCodeURL cfg oauth_state_string) StatusTemporaryRedirect w2)

/-- The function `getOIDCUserInfo`, with its named results `(u, e)`. The deferred
`recover` is installed after the state check: a panic in a later call becomes
the error `e` and `u` keeps the value it had when the panic happened. The last
step assigns `u` before decoding and, on a decoding error, sets only `e`. -/
def getOIDCUserInfo (env : Env σ) (state code : String) (w : World σ) :
    Outcome (Option OAuthUser × Option String) × World σ :=
  match invalidOauthState env state w with
  | (true, w1) => (.ret (none, some "invalid oauth state"), w1)
  | (false, w1) =>
    match exchange env code w1 with
    | (.panic p, w2) => (.ret (none, some ("getOIDCUserInfo panic: " ++ p)), w2)
    | (.ret (.error _), w2) =>
      (.ret (none, some ("failed to exchange oauth2 token using code \"" ++ code ++ "\"")), w2)
    | (.ret (.ok oauth2Token), w2) =>
      match oauth2Token.idToken with
      | none => (.ret (none, some "failed to get raw id_token from oauth2 token"), w2)
      | some rawIDToken =>
        match verifyIDToken env rawIDToken w2 with
        | (.panic p, w3) => (.ret (none, some ("getOIDCUserInfo panic: " ++ p)), w3)
        | (.ret (.error err), w3) =>
          (.ret (none, some ("failed to verify raw id_token: \"" ++ err ++ "\"")), w3)
        | (.ret (.ok idToken), w3) =>
          match claims idToken { Login := "", Email := "", AccessToken := "" } w3 with
          | ((u, some err), w4) =>
            (.ret (some u, some ("error when claiming OIDCUser: \"" ++ err ++ "\"")), w4)
          | ((u, none), w4) => (.ret (some u, none), w4)

/-- The function `handleOIDCCallback`. -/
def handleOIDCCallback (env : Env σ) (r : Request) (w : World σ) : Outcome Unit × World σ :=
  match getStateAndCode r with
  | (rState, rCode) =>
    match getOIDCUserInfo env rState rCode w with
    | (.panic p, w1) => (.panic p, w1)
    | (.ret (_, some _), w1) => (.ret (), handleOauthNotConfigured w1)
    | (.ret (none, none), w1) => (.panic nilDeref, w1)
    | (.ret (some content, none), w1) =>
      -- the code after the `if err != nil` block that may create the account
      let afterCreate := fun (w4 : World σ) =>
        match getUser env content.Email w4 with
        | (.error _, w5) => (Outcome.ret (), handleOauthUserNotFound w5)
        | (.ok user, w5) =>
          if !(user.IsSuperAdmin || user.IsAdmin) then
            (.ret (), handleOauthUserNotAllowed w5)
          else
            match fetchPassValue env "" w5 with
            | (.error _, w6) => (.ret (), w6)
            | (.ok newPass, w6) =>
              match verifyAuthRequest env { UserName := content.Email, Password := newPass } w6 with
              | (.error _, w7) => (.ret (), w7)
              | (.ok jwt, w7) => (.ret (), performSSORedirect "OIDC" jwt content.Email w7)
      match getUser env content.Email w1 with
      | (.ok _, w2) => afterCreate w2
      | (.error _, w2) =>
        match addUser env content.Email true w2 with
        | (some _, w3) => (.ret (), w3)
        | (none, w3) => afterCreate w3

/-- The function `verifyOIDCUser`. -/
def verifyOIDCUser (token : Token) : Bool := token.Valid

-- ---------------------------------------------------------------------------
-- The dispatch tables github_functions, google_functions, oidc_functions
-- ---------------------------------------------------------------------------

/-- The three providers, one per function table. -/
inductive Provider
  | github
  | google
  | oidc
deriving DecidableEq, Repr

/-- The entry `get_user_info` of a provider's table. -/
def getUserInfo (p : Provider) (env : Env σ) (state code : String) (w : World σ) :
    Outcome (Option OAuthUser × Option String) × World σ :=
  match p with
  | .github => getGithubUserInfo env state code w
  | .google => getGoogleUserInfo env state code w
  | .oidc => getOIDCUserInfo env state code w

/-- The entry `handle_callback` of a provider's table. -/
def handleCallback (p : Provider) (env : Env σ) (r : Request) (w : World σ) :
    Outcome Unit × World σ :=
  match p with
  | .github => handleGithubCallback env r w
  | .google => handleGoogleCallback env r w
  | .oidc => handleOIDCCallback env r w

/-- The entry `handle_login` of a provider's table. -/
def handleLogin (p : Provider) (env : Env σ) (r : Request) (w : World σ) :
    Outcome Unit × World σ :=
  match p with
  | .github => handleGithubLogin env r w
  | .google => handleGoogleLogin env r w
  | .oidc => handleOIDCLogin env r w

/-- The field of the identity each callback uses as username: `content.Login`
for GitHub, `content.Email` for Google and OIDC. -/
def usernameOf (p : Provider) (content : OAuthUser) : String :=
  match p with
  | .github => content.Login
  | .google => content.Email
  | .oidc => content.Email

-- ---------------------------------------------------------------------------
-- Observations on traces
-- ---------------------------------------------------------------------------

/-- The events a run added: the trace after it, without the trace before it. -/
def newEvents (w w1 : World σ) : List Event :=
  w1.trace.drop w.trace.length

/-- A call to the user store: `GetUser` or `addUser`. -/
def Event.isUserStoreCall : Event → Bool
  | .getUser _ _ => true
  | .addUser _ _ _ => true
  | _ => false

/-- A call to `addUser`. -/
def Event.isAddUser : Event → Bool
  | .addUser _ _ _ => true
  | _ => false

/-- A call to `GetUser`. -/
def Event.isGetUser : Event → Bool
  | .getUser _ _ => true
  | _ => false

/-- A call to the session issuer, `VerifyAuthRequest`. -/
def Event.isSessionIssuerCall : Event → Bool
  | .verifyAuthRequest _ => true
  | _ => false

/-- The final SSO redirect. -/
def Event.isSSORedirect : Event → Bool
  | .ssoRedirect _ _ _ => true
  | _ => false

/-- A redirect written with `http.Redirect`. -/
def Event.isRedirect : Event → Bool
  | .redirect _ _ => true
  | _ => false

/-- A step of the identity lookup after the state check: the code exchange, the
user-info request and its body, the id-token verification and its claims. -/
def Event.isIdentityStep : Event → Bool
  | .exchange _ => true
  | .httpRequest _ => true
  | .body _ => true
  | .verifyIDToken _ => true
  | .claims _ => true
  | _ => false

/-- A code exchange. -/
def Event.isExchange : Event → Bool
  | .exchange _ => true
  | _ => false

/-- What a `GetUser` event returned; nothing for any other event. -/
def Event.lookupResult : Event → Option (Option HostUser)
  | .getUser _ found => some found
  | _ => none

/-- The answer of the last `GetUser` call of a trace, if there was one. -/
def lastGetUser (tr : List Event) : Option (Option HostUser) :=
  tr.reverse.findSome? Event.lookupResult

/-- The state is absent from both tiers: the durable store reports it not valid
or returns a different value, and the local cache, asked after the store, does
not hold it. -/
def absentFromBothTiers (env : Env σ) (state : String) (x : σ) : Bool :=
  (!(env.isStateValid state x).1.2 || state != (env.isStateValid state x).1.1) &&
    !(env.isStateCached state (env.isStateValid state x).2).1

/-- The events of the state check: the store lookup, then the cache lookup when
the store did not confirm the state. -/
def stateCheckEvents (env : Env σ) (state : String) (x : σ) : List Event :=
  if !(env.isStateValid state x).1.2 || state != (env.isStateValid state x).1.1 then
    [.isStateValid state (env.isStateValid state x).1.1 (env.isStateValid state x).1.2,
     .isStateCached state (env.isStateCached state (env.isStateValid state x).2).1]
  else
    [.isStateValid state (env.isStateValid state x).1.1 (env.isStateValid state x).1.2]

/-- The keying field of a payload is malformed: the payload is not valid JSON, or
its top-level value is neither an object nor null, or some member whose name is
the key (without regard to case) carries a value that is neither a string nor
null. -/
def malformedField (key : String) (p : Payload) : Bool :=
  match p with
  | .invalid => true
  | .nonObject => true
  | .null => false
  | .object members =>
    members.any fun m => foldKey m.1 == key.data &&
      (match m.2 with
        | .string _ => false
        | .null => false
        | _ => true)

/-- The keying field of a payload is absent: the payload is the literal null, or
an object none of whose members is named by the key. -/
def absentField (key : String) (p : Payload) : Bool :=
  match p with
  | .null => true
  | .object members => members.all fun m => foldKey m.1 != key.data
  | _ => false

/-- The member name each provider keys the identity on. -/
def keyOf (p : Provider) : String :=
  match p with
  | .github => "login"
  | .google => "email"
  | .oidc => "email"

/-- The identity payload a getUserInfo run received: the user-info response
body (GitHub, Google) or the verified id-token claims (OIDC). -/
def Event.identityPayload : Event → Option Payload
  | .body p => some p
  | .claims p => some p
  | _ => none

/-- A response written to the browser. -/
def Event.isResponse : Event → Bool
  | .notConfigured => true
  | .userNotFound => true
  | .userNotAllowed => true
  | .redirect _ _ => true
  | .ssoRedirect _ _ _ => true
  | _ => false

/-- A call to `SetState`. -/
def Event.isSetState : Event → Bool
  | .setState _ _ => true
  | _ => false

/-- An event of the identity lookup: the state check or a later lookup step. -/
def Event.isLookupPhase : Event → Bool
  | .isStateValid _ _ _ => true
  | .isStateCached _ _ => true
  | e => e.isIdentityStep

-- ---------------------------------------------------------------------------
-- The state-token tiers
-- ---------------------------------------------------------------------------

/-- The two tiers a state token can be held in: the durable state store and the
process-local cache. -/
structure StateTiers where
  store : List String
  cache : List String
deriving DecidableEq, Repr

/-- Modelled from the spec: `logic.SetState` is not in the adapter files. The
spec has `issue` register the token as pending in the durable state store. -/
def specSetState (t : String) (s : StateTiers) : Option String × StateTiers :=
  (none, { s with store := t :: s.store })

/-- Modelled from the spec: `logic.IsStateValid` is not in the adapter files. The
spec has validation consult the durable store, with the side effect that a
successful validation is single-use: a pending token is returned as valid and
leaves the store; an unknown token is reported not valid. -/
def specIsStateValid (t : String) (s : StateTiers) : (String × Bool) × StateTiers :=
  if t ∈ s.store then ((t, true), { s with store := s.store.filter (fun x => x != t) })
  else (("", false), s)

/-- Modelled from the spec: `isStateCached` is not in the adapter files. The spec
has the fallback check the process-local cache, where a token is held for a
grace period: the check reads the cache and leaves it as it is. -/
def specIsStateCached (t : String) (s : StateTiers) : Bool × StateTiers :=
  (decide (t ∈ s.cache), s)

/-- An environment whose state-token service is the two tiers above and whose
other collaborators are those of `base`, acting on their own state only. -/
def withStateTiers {τ : Type} (base : Env τ) : Env (StateTiers × τ) where
  user_signin_length := base.user_signin_length
  randomString := fun n s => ((base.randomString n s.2).1, (s.1, (base.randomString n s.2).2))
  setState := fun t s => ((specSetState t s.1).1, ((specSetState t s.1).2, s.2))
  isStateValid := fun t s => ((specIsStateValid t s.1).1, ((specIsStateValid t s.1).2, s.2))
  isStateCached := fun t s => ((specIsStateCached t s.1).1, ((specIsStateCached t s.1).2, s.2))
  getUser := fun n s => ((base.getUser n s.2).1, (s.1, (base.getUser n s.2).2))
  addUser := fun n b s => ((base.addUser n b s.2).1, (s.1, (base.addUser n b s.2).2))
  fetchPassValue := fun a s => ((base.fetchPassValue a s.2).1, (s.1, (base.fetchPassValue a s.2).2))
  verifyAuthRequest := fun a s =>
    ((base.verifyAuthRequest a s.2).1, (s.1, (base.verifyAuthRequest a s.2).2))
  authCodeURL := base.authCodeURL
  exchange := fun c k s => ((base.exchange c k s.2).1, (s.1, (base.exchange c k s.2).2))
  marshalToken := base.marshalToken
  httpDo := fun q s => ((base.httpDo q s.2).1, (s.1, (base.httpDo q s.2).2))
  newProvider := fun i s => ((base.newProvider i s.2).1, (s.1, (base.newProvider i s.2).2))
  verify := fun v r s => ((base.verify v r s.2).1, (s.1, (base.verify v r s.2).2))

-- ---------------------------------------------------------------------------
-- Scripted collaborators for concrete runs
-- ---------------------------------------------------------------------------

/-- The script of a concrete run: what each collaborator answers. -/
structure Script where
  random : String
  setStateErr : Option String
  pending : List String
  cached : List String
  exchangeResult : Outcome (Except String Token)
  tokenJSON : String
  userInfoBody : Payload
  discovery : Except String ProviderMeta
  idTokenClaims : Payload
  addUserErr : Option String
  pass : String
  jwt : String

/-- Collaborators that follow a script. The external state is the user store, a
list of accounts: `GetUser` finds an account by name, `addUser` appends a
non-admin account unless the script makes it fail. -/
def scripted (s : Script) : Env (List HostUser) where
  user_signin_length := 16
  randomString := fun _ us => (s.random, us)
  setState := fun _ us => (s.setStateErr, us)
  isStateValid := fun t us => (if t ∈ s.pending then (t, true) else ("", false), us)
  isStateCached := fun t us => (decide (t ∈ s.cached), us)
  getUser := fun n us =>
    (match us.find? (fun u => u.UserName == n) with
      | some u => .ok u
      | none => .error "could not find any records", us)
  addUser := fun n _ us =>
    match s.addUserErr with
    | some e => (some e, us)
    | none => (none, us ++ [HostUser.mk n false false])
  fetchPassValue := fun _ us => (.ok s.pass, us)
  verifyAuthRequest := fun _ us => (.ok s.jwt, us)
  authCodeURL := fun cfg t => cfg.Endpoint ++ "?client_id=" ++ cfg.ClientID ++ "&state=" ++ t
  exchange := fun _ _ us => (s.exchangeResult, us)
  marshalToken := fun _ => .ok s.tokenJSON
  httpDo := fun _ us => (.ret (.ok (HttpResponse.mk 200 (.ok s.userInfoBody))), us)
  newProvider := fun _ us => (s.discovery, us)
  verify := fun _ _ us => (.ret (.ok (IDToken.mk s.idTokenClaims)), us)

/-- A script in which everything succeeds: state `S1` is pending, the exchange
yields a valid token carrying an id token, the identity is `alice`. -/
def happyScript : Script where
  random := "S1"
  setStateErr := none
  pending := ["S1"]
  cached := []
  exchangeResult := .ret (.ok (Token.mk "gho_token" false (some "raw.id.token")))
  tokenJSON := "\x7b\"access_token\":\"gho_token\",\"token_type\":\"bearer\"\x7d"
  userInfoBody := .object [("login", .string "alice"), ("email", .string "alice@example.com")]
  discovery := .ok (ProviderMeta.mk "https://issuer.example.com" "https://issuer.example.com/auth")
  idTokenClaims := .object [("email", .string "alice@example.com")]
  addUserErr := none
  pass := "onetime"
  jwt := "jwt-1"

/-- A configuration as `initGithub` leaves it. -/
def sampleConfig : Config :=
  Config.mk "https://host/api/oauth/callback" "client-1" "secret-1" [] "github.Endpoint"

/-- A world with the adapter configured and the given accounts in the user store. -/
def configuredWorld (users : List HostUser) : World (List HostUser) :=
  World.mk users (some sampleConfig) (some (Verifier.mk "https://issuer.example.com" "client-1")) []

/-- A world before any init function has run. -/
def freshWorld (users : List HostUser) : World (List HostUser) :=
  World.mk users none none []

/-- The token `logic.RandomString(user_signin_length)` generates for a login
started in the given world. -/
def freshToken (env : Env σ) (w : World σ) : String :=
  (env.randomString env.user_signin_length w.ext).1

/-- What `logic.SetState` answers when handed that fresh token: nil or an error. -/
def issueResult (env : Env σ) (w : World σ) : Option String :=
  (env.setState (freshToken env w) (env.randomString env.user_signin_length w.ext).2).1

/-- A script whose issuer cannot be reached: discovery fails. -/
def unreachableScript : Script :=
  { happyScript with discovery := .error "Get \"https://down.example.com/.well-known/openid-configuration\": dial tcp: i/o timeout" }

/-- A world in which token `S1` is pending in the durable store and is also held
in the process-local cache; the adapter is configured, the user store holds
`alice` as an admin. -/
def cachedTokenWorld : World (StateTiers × List HostUser) :=
  World.mk (StateTiers.mk ["S1"] ["S1"], [HostUser.mk "alice" true false])
    (some sampleConfig) (some (Verifier.mk "https://issuer.example.com" "client-1")) []

/-- A world in which token `S1` is pending in the durable store only. -/
def pendingTokenWorld : World (StateTiers × List HostUser) :=
  World.mk (StateTiers.mk ["S1"] [], [HostUser.mk "alice" true false])
    (some sampleConfig) (some (Verifier.mk "https://issuer.example.com" "client-1")) []

/-- A script in which the verified id token carries the `email` claim and a
numeric `login` claim. -/
def numericLoginClaimScript : Script :=
  { happyScript with
    idTokenClaims := .object [("email", .string "bob@example.com"), ("login", .number 1001)] }

/-- A script in which the user-info endpoint answers with an error document
instead of a profile: a JSON object without a `login` member. -/
def badCredentialsScript : Script :=
  { happyScript with
    userInfoBody := .object [("message", .string "Bad credentials"),
      ("documentation_url", .string "https://docs.github.com/rest")] }

/-- A script in which the user-info endpoint answers with a numeric `login`. -/
def numericLoginScript : Script :=
  { happyScript with userInfoBody := .object [("login", .number 1001)] }

/-- The identity payload received in a run: the first (and, in one getUserInfo
run, only) payload logged. -/
def receivedPayload (tr : List Event) : Option Payload :=
  tr.findSome? Event.identityPayload

-- ---------------------------------------------------------------------------
-- Error messages
-- ---------------------------------------------------------------------------

theorem head_append (a b : String) (x : Char) (h : a.data.head? = some x) :
    (a ++ b).data.head? = some x := by
  rw [String.data_append]
  cases hd : a.data with
  | nil => rw [hd] at h; simp at h
  | cons y ys => rw [hd] at h; simpa using h

theorem ne_invalid_of_head (s : String) (x : Char) (hs : s.data.head? = some x) (hx : x ≠ 'i') :
    s ≠ "invalid oauth state" := by
  intro e
  rw [e] at hs
  have h2 : ("invalid oauth state" : String).data.head? = some 'i' := by decide
  rw [h2] at hs
  exact hx (Option.some.inj hs).symm

theorem msg_exchange (e : String) : ¬ "code exchange failed: " ++ e = "invalid oauth state" :=
  ne_invalid_of_head _ 'c' (head_append _ _ _ (by decide)) (by decide)

theorem msg_marshal (e : String) :
    ¬ "failed to convert token to json: " ++ e = "invalid oauth state" :=
  ne_invalid_of_head _ 'f' (head_append _ _ _ (by decide)) (by decide)

theorem msg_http (e : String) : ¬ "failed getting user info: " ++ e = "invalid oauth state" :=
  ne_invalid_of_head _ 'f' (head_append _ _ _ (by decide)) (by decide)

theorem msg_body (e : String) : ¬ "failed reading response body: " ++ e = "invalid oauth state" :=
  ne_invalid_of_head _ 'f' (head_append _ _ _ (by decide)) (by decide)

theorem msg_parse (e : String) :
    ¬ "failed parsing email from response data: " ++ e = "invalid oauth state" :=
  ne_invalid_of_head _ 'f' (head_append _ _ _ (by decide)) (by decide)

theorem msg_panic (e : String) : ¬ "getOIDCUserInfo panic: " ++ e = "invalid oauth state" :=
  ne_invalid_of_head _ 'g' (head_append _ _ _ (by decide)) (by decide)

theorem msg_oidc_exchange (c : String) :
    ¬ "failed to exchange oauth2 token using code \"" ++ c ++ "\"" = "invalid oauth state" :=
  ne_invalid_of_head _ 'f' (head_append _ _ _ (head_append _ _ _ (by decide))) (by decide)

theorem msg_verify (e : String) :
    ¬ "failed to verify raw id_token: \"" ++ e ++ "\"" = "invalid oauth state" :=
  ne_invalid_of_head _ 'f' (head_append _ _ _ (head_append _ _ _ (by decide))) (by decide)

theorem msg_claims (e : String) :
    ¬ "error when claiming OIDCUser: \"" ++ e ++ "\"" = "invalid oauth state" :=
  ne_invalid_of_head _ 'e' (head_append _ _ _ (head_append _ _ _ (by decide))) (by decide)

-- ---------------------------------------------------------------------------
-- The state check
-- ---------------------------------------------------------------------------

theorem invalidOauthState_fst (env : Env σ) (state : String) (w : World σ) :
    (invalidOauthState env state w).1 = absentFromBothTiers env state w.ext := by
  unfold invalidOauthState absentFromBothTiers isStateValid isStateCached
  simp only [World.withExt, World.emit]
  split
  · rename_i h; simp [h]
  · rename_i h; simp [h]

theorem invalidOauthState_trace (env : Env σ) (state : String) (w : World σ) :
    (invalidOauthState env state w).2.trace = w.trace ++ stateCheckEvents env state w.ext := by
  unfold invalidOauthState stateCheckEvents isStateValid isStateCached
  simp only [World.withExt, World.emit]
  split
  · rename_i h; simp [h]
  · rename_i h; simp [h]

theorem invalidOauthState_globals (env : Env σ) (state : String) (w : World σ) :
    (invalidOauthState env state w).2.auth_provider = w.auth_provider ∧
    (invalidOauthState env state w).2.oidc_verifier = w.oidc_verifier := by
  unfold invalidOauthState isStateValid isStateCached
  simp only [World.withExt, World.emit]
  split <;> simp

theorem stateCheckEvents_lookup (env : Env σ) (state : String) (x : σ) :
    ∀ e ∈ stateCheckEvents env state x, e.isLookupPhase = true ∧ e.isExchange = false := by
  unfold stateCheckEvents
  split <;> simp [Event.isLookupPhase, Event.isExchange]

-- ---------------------------------------------------------------------------
-- getUserInfo: rejected and accepted runs
-- ---------------------------------------------------------------------------

theorem getGithubUserInfo_reject (env : Env σ) (state code : String) (w : World σ)
    (h : (invalidOauthState env state w).1 = true) :
    getGithubUserInfo env state code w =
      (.ret (none, some "invalid oauth state"), (invalidOauthState env state w).2) := by
  unfold getGithubUserInfo
  rcases hi : invalidOauthState env state w with ⟨b, w1⟩
  rw [hi] at h
  simp only at h
  subst h
  rfl

theorem getGoogleUserInfo_reject (env : Env σ) (state code : String) (w : World σ)
    (h : (invalidOauthState env state w).1 = true) :
    getGoogleUserInfo env state code w =
      (.ret (none, some "invalid oauth state"), (invalidOauthState env state w).2) := by
  unfold getGoogleUserInfo
  rcases hi : invalidOauthState env state w with ⟨b, w1⟩
  rw [hi] at h
  simp only at h
  subst h
  rfl

theorem getOIDCUserInfo_reject (env : Env σ) (state code : String) (w : World σ)
    (h : (invalidOauthState env state w).1 = true) :
    getOIDCUserInfo env state code w =
      (.ret (none, some "invalid oauth state"), (invalidOauthState env state w).2) := by
  unfold getOIDCUserInfo
  rcases hi : invalidOauthState env state w with ⟨b, w1⟩
  rw [hi] at h
  simp only at h
  subst h
  rfl

theorem getGithubUserInfo_accept (env : Env σ) (state code : String) (w : World σ)
    (h : (invalidOauthState env state w).1 = false) :
    ∃ rest, (getGithubUserInfo env state code w).2.trace =
        (invalidOauthState env state w).2.trace ++ Event.exchange code :: rest ∧
      (∀ e ∈ rest, e.isIdentityStep = true) ∧
      (getGithubUserInfo env state code w).1 ≠ .ret (none, some "invalid oauth state") := by
  unfold getGithubUserInfo
  rcases hi : invalidOauthState env state w with ⟨b, w1⟩
  rw [hi] at h
  simp only at h
  subst h
  rcases w1 with ⟨x, ap, ov, tr⟩
  cases ap <;>
  · simp only [exchange, httpDo, readAll, World.emit, World.withExt]
    repeat' split
    all_goals (try simp only [Prod.mk.injEq] at *)
    all_goals (try casesm* _ ∧ _)
    all_goals subst_vars
    all_goals
      simp_all [msg_exchange, msg_marshal, msg_http, msg_body, msg_parse, Event.isIdentityStep]

theorem getGoogleUserInfo_accept (env : Env σ) (state code : String) (w : World σ)
    (h : (invalidOauthState env state w).1 = false) :
    ∃ rest, (getGoogleUserInfo env state code w).2.trace =
        (invalidOauthState env state w).2.trace ++ Event.exchange code :: rest ∧
      (∀ e ∈ rest, e.isIdentityStep = true) ∧
      (getGoogleUserInfo env state code w).1 ≠ .ret (none, some "invalid oauth state") := by
  unfold getGoogleUserInfo
  rcases hi : invalidOauthState env state w with ⟨b, w1⟩
  rw [hi] at h
  simp only at h
  subst h
  rcases w1 with ⟨x, ap, ov, tr⟩
  cases ap <;>
  · simp only [exchange, httpDo, readAll, World.emit, World.withExt]
    repeat' split
    all_goals (try simp only [Prod.mk.injEq] at *)
    all_goals (try casesm* _ ∧ _)
    all_goals subst_vars
    all_goals
      simp_all [msg_exchange, msg_marshal, msg_http, msg_body, msg_parse, Event.isIdentityStep]

theorem getOIDCUserInfo_accept (env : Env σ) (state code : String) (w : World σ)
    (h : (invalidOauthState env state w).1 = false) :
    ∃ rest, (getOIDCUserInfo env state code w).2.trace =
        (invalidOauthState env state w).2.trace ++ Event.exchange code :: rest ∧
      (∀ e ∈ rest, e.isIdentityStep = true) ∧
      (getOIDCUserInfo env state code w).1 ≠ .ret (none, some "invalid oauth state") := by
  unfold getOIDCUserInfo
  rcases hi : invalidOauthState env state w with ⟨b, w1⟩
  rw [hi] at h
  simp only at h
  subst h
  rcases w1 with ⟨x, ap, ov, tr⟩
  cases ap <;> cases ov <;>
  · simp only [exchange, verifyIDToken, claims, World.emit, World.withExt]
    repeat' split
    all_goals (try simp only [Prod.mk.injEq] at *)
    all_goals (try casesm* _ ∧ _)
    all_goals subst_vars
    all_goals (try simp only [Prod.mk.injEq] at *)
    all_goals (try casesm* _ ∧ _)
    all_goals subst_vars
    all_goals
      simp_all [msg_panic, msg_oidc_exchange, msg_verify, msg_claims, Event.isIdentityStep]

theorem getUserInfo_reject (p : Provider) (env : Env σ) (state code : String) (w : World σ)
    (h : (invalidOauthState env state w).1 = true) :
    getUserInfo p env state code w =
      (.ret (none, some "invalid oauth state"), (invalidOauthState env state w).2) := by
  cases p
  · exact getGithubUserInfo_reject env state code w h
  · exact getGoogleUserInfo_reject env state code w h
  · exact getOIDCUserInfo_reject env state code w h

theorem getUserInfo_accept (p : Provider) (env : Env σ) (state code : String) (w : World σ)
    (h : (invalidOauthState env state w).1 = false) :
    ∃ rest, (getUserInfo p env state code w).2.trace =
        (invalidOauthState env state w).2.trace ++ Event.exchange code :: rest ∧
      (∀ e ∈ rest, e.isIdentityStep = true) ∧
      (getUserInfo p env state code w).1 ≠ .ret (none, some "invalid oauth state") := by
  cases p
  · exact getGithubUserInfo_accept env state code w h
  · exact getGoogleUserInfo_accept env state code w h
  · exact getOIDCUserInfo_accept env state code w h

theorem newEvents_of_append (w w1 : World σ) (l : List Event) (h : w1.trace = w.trace ++ l) :
    newEvents w w1 = l := by
  unfold newEvents
  rw [h]
  exact List.drop_left _ _

theorem stateCheckEvents_quiet (env : Env σ) (state : String) (x : σ) :
    ∀ e ∈ stateCheckEvents env state x,
      e.isUserStoreCall = false ∧ e.isSessionIssuerCall = false ∧ e.isSSORedirect = false ∧
      e.isResponse = false ∧ e.isAddUser = false ∧ e.isGetUser = false := by
  unfold stateCheckEvents
  split <;> simp [Event.isUserStoreCall, Event.isSessionIssuerCall, Event.isSSORedirect,
    Event.isResponse, Event.isAddUser, Event.isGetUser]

/-- C1: for each provider and every (state, code), getUserInfo returns the error
"invalid oauth state" with no identity exactly when the state is absent from
both tiers; in that case the run consists of the state check alone and holds no
code exchange; when the state is present in either tier the state check is
followed at once by the code exchange. -/
theorem getUserInfo_rejects_iff_absent (p : Provider) (env : Env σ) (state code : String)
    (w : World σ) :
    ((getUserInfo p env state code w).1 = .ret (none, some "invalid oauth state") ↔
        absentFromBothTiers env state w.ext = true) ∧
    (absentFromBothTiers env state w.ext = true →
        newEvents w (getUserInfo p env state code w).2 = stateCheckEvents env state w.ext ∧
        ∀ e ∈ newEvents w (getUserInfo p env state code w).2, e.isExchange = false) ∧
    (absentFromBothTiers env state w.ext = false →
        ∃ rest, newEvents w (getUserInfo p env state code w).2 =
          stateCheckEvents env state w.ext ++ Event.exchange code :: rest) := by
  have hfst := invalidOauthState_fst env state w
  have htr := invalidOauthState_trace env state w
  cases hab : absentFromBothTiers env state w.ext
  · rw [hab] at hfst
    obtain ⟨rest, h1, _, h3⟩ := getUserInfo_accept p env state code w hfst
    refine ⟨⟨fun h => absurd h h3, fun h => by simp at h⟩, fun h => by simp at h, fun _ => ?_⟩
    refine ⟨rest, newEvents_of_append _ _ _ ?_⟩
    rw [h1, htr, List.append_assoc]
  · rw [hab] at hfst
    have h1 := getUserInfo_reject p env state code w hfst
    refine ⟨⟨fun _ => rfl, fun _ => by rw [h1]⟩, fun _ => ?_, fun h => by simp at h⟩
    have h2 : newEvents w (getUserInfo p env state code w).2 = stateCheckEvents env state w.ext :=
      newEvents_of_append _ _ _ (by rw [h1]; exact htr)
    refine ⟨h2, fun e he => ?_⟩
    rw [h2] at he
    exact (stateCheckEvents_lookup env state w.ext e he).2

/-- Two concrete runs: an unknown state is rejected after the state check alone, a
pending state is followed by the code exchange. -/
theorem getUserInfo_rejects_iff_absent_witness :
    (absentFromBothTiers (scripted happyScript) "S2" (configuredWorld []).ext = true ∧
      newEvents (configuredWorld [])
          (getUserInfo .oidc (scripted happyScript) "S2" "C1" (configuredWorld [])).2 =
        stateCheckEvents (scripted happyScript) "S2" (configuredWorld []).ext) ∧
    (absentFromBothTiers (scripted happyScript) "S1" (configuredWorld []).ext = false ∧
      ∃ rest, newEvents (configuredWorld [])
          (getUserInfo .github (scripted happyScript) "S1" "C1" (configuredWorld [])).2 =
        stateCheckEvents (scripted happyScript) "S1" (configuredWorld []).ext ++
          Event.exchange "C1" :: rest) :=
  ⟨⟨by decide,
      ((getUserInfo_rejects_iff_absent .oidc (scripted happyScript) "S2" "C1"
        (configuredWorld [])).2.1 (by decide)).1⟩,
    ⟨by decide,
      (getUserInfo_rejects_iff_absent .github (scripted happyScript) "S1" "C1"
        (configuredWorld [])).2.2 (by decide)⟩⟩

/-- C2: for each provider and every callback whose state is absent from both the
durable store and the cache, the handler returns after the state check and the
"not configured" error response: no call to the user store, no call to the
session issuer, no SSO redirect. -/
theorem handleCallback_invalid_state (p : Provider) (env : Env σ) (r : Request) (w : World σ)
    (h : absentFromBothTiers env r.state w.ext = true) :
    (handleCallback p env r w).1 = .ret () ∧
    newEvents w (handleCallback p env r w).2 =
      stateCheckEvents env r.state w.ext ++ [Event.notConfigured] ∧
    (∀ e ∈ newEvents w (handleCallback p env r w).2,
      e.isUserStoreCall = false ∧ e.isSessionIssuerCall = false ∧ e.isSSORedirect = false) := by
  have hfst := invalidOauthState_fst env r.state w
  rw [h] at hfst
  have htr := invalidOauthState_trace env r.state w
  have key : handleCallback p env r w =
      (.ret (), handleOauthNotConfigured (invalidOauthState env r.state w).2) := by
    cases p
    · simp only [handleCallback, handleGithubCallback, getStateAndCode,
        getGithubUserInfo_reject env r.state r.code w hfst]
    · simp only [handleCallback, handleGoogleCallback, getStateAndCode,
        getGoogleUserInfo_reject env r.state r.code w hfst]
    · simp only [handleCallback, handleOIDCCallback, getStateAndCode,
        getOIDCUserInfo_reject env r.state r.code w hfst]
  have hnew : newEvents w (handleCallback p env r w).2 =
      stateCheckEvents env r.state w.ext ++ [Event.notConfigured] :=
    newEvents_of_append _ _ _ (by
      rw [key]; simp only [handleOauthNotConfigured, World.emit]; rw [htr, List.append_assoc])
  refine ⟨by rw [key], hnew, fun e he => ?_⟩
  rw [hnew] at he
  rcases List.mem_append.mp he with he | he
  · have := stateCheckEvents_quiet env r.state w.ext e he
    exact ⟨this.1, this.2.1, this.2.2.1⟩
  · simp at he
    subst he
    simp [Event.isUserStoreCall, Event.isSessionIssuerCall, Event.isSSORedirect]

/-- A concrete Google callback with an unknown state: state check, then the error
response. -/
theorem handleCallback_invalid_state_witness :
    absentFromBothTiers (scripted happyScript) "S2" (configuredWorld []).ext = true ∧
    newEvents (configuredWorld [])
        (handleCallback .google (scripted happyScript) (Request.mk "S2" "C1")
          (configuredWorld [])).2 =
      [Event.isStateValid "S2" "" false, Event.isStateCached "S2" false, Event.notConfigured] :=
  ⟨by decide,
    (handleCallback_invalid_state .google (scripted happyScript) (Request.mk "S2" "C1")
      (configuredWorld []) (by decide)).2.1⟩

theorem handleLogin_cases (p : Provider) (env : Env σ) (r : Request) (w : World σ) :
    (handleLogin p env r w).1 = .ret () ∧
    newEvents w (handleLogin p env r w).2 =
      (match w.auth_provider with
        | none => [Event.randomString env.user_signin_length (freshToken env w), Event.notConfigured]
        | some cfg =>
          match issueResult env w with
          | none =>
            [Event.randomString env.user_signin_length (freshToken env w),
              Event.setState (freshToken env w) none,
              Event.redirect (env.authCodeURL cfg (freshToken env w)) 307]
          | some err =>
            [Event.randomString env.user_signin_length (freshToken env w),
              Event.setState (freshToken env w) (some err), Event.notConfigured]) := by
  rcases w with ⟨x, ap, ov, tr⟩
  cases p <;> cases ap <;>
  · simp only [handleLogin, handleGithubLogin, handleGoogleLogin, handleOIDCLogin, randomString,
      setState, handleOauthNotConfigured, httpRedirect, StatusTemporaryRedirect, World.emit,
      World.withExt, newEvents, freshToken, issueResult]
    repeat' split
    all_goals (try simp only [Prod.mk.injEq] at *)
    all_goals (try casesm* _ ∧ _)
    all_goals subst_vars
    all_goals simp_all

/-- C5: for each provider, handleLogin answers with a redirect exactly when a
configuration is present and SetState succeeds for the freshly generated token;
the redirect then has status 307 and targets the configuration's AuthCodeURL of
that same token, the one registered in the store. In every other case the answer
is "not configured" and no redirect is written, and without a configuration
SetState is not called at all. -/
theorem handleLogin_redirects_iff (p : Provider) (env : Env σ) (r : Request) (w : World σ) :
    ((∃ e ∈ newEvents w (handleLogin p env r w).2, e.isRedirect = true) ↔
      ((∃ cfg, w.auth_provider = some cfg) ∧ issueResult env w = none)) ∧
    (∀ cfg, w.auth_provider = some cfg → issueResult env w = none →
      newEvents w (handleLogin p env r w).2 =
        [Event.randomString env.user_signin_length (freshToken env w),
          Event.setState (freshToken env w) none,
          Event.redirect (env.authCodeURL cfg (freshToken env w)) 307]) ∧
    (¬ ((∃ cfg, w.auth_provider = some cfg) ∧ issueResult env w = none) →
      (newEvents w (handleLogin p env r w).2).filter Event.isResponse = [Event.notConfigured]) ∧
    (w.auth_provider = none →
      ∀ e ∈ newEvents w (handleLogin p env r w).2, e.isSetState = false) := by
  have h := (handleLogin_cases p env r w).2
  cases hap : w.auth_provider with
  | none =>
    rw [hap] at h
    simp only at h
    rw [h]
    simp [Event.isRedirect, Event.isResponse, Event.isSetState]
  | some cfg =>
    rw [hap] at h
    cases his : issueResult env w with
    | none =>
      rw [his] at h
      simp only at h
      rw [h]
      simp [Event.isRedirect, Event.isResponse, Event.isSetState]
    | some err =>
      rw [his] at h
      simp only at h
      rw [h]
      simp [Event.isRedirect, Event.isResponse, Event.isSetState]

/-- Two concrete logins: a configured adapter redirects with status 307, an
unconfigured one answers "not configured" without calling SetState. -/
theorem handleLogin_redirects_iff_witness :
    ((configuredWorld []).auth_provider = some sampleConfig ∧
      issueResult (scripted happyScript) (configuredWorld []) = none ∧
      newEvents (configuredWorld [])
          (handleLogin .github (scripted happyScript) (Request.mk "" "") (configuredWorld [])).2 =
        [Event.randomString 16 "S1", Event.setState "S1" none,
          Event.redirect "github.Endpoint?client_id=client-1&state=S1" 307]) ∧
    ((freshWorld []).auth_provider = none ∧
      (newEvents (freshWorld [])
          (handleLogin .oidc (scripted happyScript) (Request.mk "" "") (freshWorld [])).2).filter
        Event.isResponse = [Event.notConfigured] ∧
      ∀ e ∈ newEvents (freshWorld [])
          (handleLogin .oidc (scripted happyScript) (Request.mk "" "") (freshWorld [])).2,
        e.isSetState = false) :=
  ⟨⟨rfl, by decide,
      (handleLogin_redirects_iff .github (scripted happyScript) (Request.mk "" "")
        (configuredWorld [])).2.1 sampleConfig rfl (by decide)⟩,
    ⟨rfl,
      (handleLogin_redirects_iff .oidc (scripted happyScript) (Request.mk "" "")
        (freshWorld [])).2.2.1 (by simp [freshWorld]),
      (handleLogin_redirects_iff .oidc (scripted happyScript) (Request.mk "" "")
        (freshWorld [])).2.2.2 rfl⟩⟩

theorem getUserInfo_lookup_phase (p : Provider) (env : Env σ) (state code : String)
    (w : World σ) :
    ∃ added, (getUserInfo p env state code w).2.trace = w.trace ++ added ∧
      ∀ e ∈ added, e.isLookupPhase = true := by
  have htr := invalidOauthState_trace env state w
  cases hb : (invalidOauthState env state w).1
  · obtain ⟨rest, h1, h2, _⟩ := getUserInfo_accept p env state code w hb
    refine ⟨stateCheckEvents env state w.ext ++ Event.exchange code :: rest, ?_, ?_⟩
    · rw [h1, htr, List.append_assoc]
    · intro e he
      rcases List.mem_append.mp he with he | he
      · exact (stateCheckEvents_lookup env state w.ext e he).1
      · rcases List.mem_cons.mp he with he | he
        · subst he; rfl
        · have := h2 e he
          cases e <;> simp_all [Event.isLookupPhase, Event.isIdentityStep]
  · refine ⟨stateCheckEvents env state w.ext, ?_, ?_⟩
    · rw [getUserInfo_reject p env state code w hb]; exact htr
    · intro e he
      exact (stateCheckEvents_lookup env state w.ext e he).1

theorem lookupPhase_quiet (e : Event) (h : e.isLookupPhase = true) :
    e.isUserStoreCall = false ∧ e.isSessionIssuerCall = false ∧ e.isSSORedirect = false ∧
    e.isResponse = false ∧ e.isAddUser = false ∧ e.isGetUser = false ∧ e.lookupResult = none := by
  cases e <;> simp_all [Event.isLookupPhase, Event.isIdentityStep, Event.isUserStoreCall,
    Event.isSessionIssuerCall, Event.isSSORedirect, Event.isResponse, Event.isAddUser,
    Event.isGetUser, Event.lookupResult]

theorem lastGetUser_append (l1 l2 : List Event) :
    lastGetUser (l1 ++ l2) = (lastGetUser l2).or (lastGetUser l1) := by
  unfold lastGetUser
  rw [List.reverse_append, List.findSome?_append]

theorem lastGetUser_lookup (l : List Event) (h : ∀ e ∈ l, e.isLookupPhase = true) :
    lastGetUser l = none := by
  unfold lastGetUser
  rw [List.findSome?_eq_none_iff]
  intro e he
  exact (lookupPhase_quiet e (h e (List.mem_reverse.mp he))).2.2.2.2.2.2

theorem filter_response_lookup (l : List Event) (h : ∀ e ∈ l, e.isLookupPhase = true) :
    l.filter Event.isResponse = [] := by
  rw [List.filter_eq_nil_iff]
  intro e he
  simp [(lookupPhase_quiet e (h e he)).2.2.2.1]

theorem lastGetUser_nil : lastGetUser [] = none := rfl

theorem lastGetUser_cons (e : Event) (l : List Event) :
    lastGetUser (e :: l) = (lastGetUser l).or e.lookupResult := by
  unfold lastGetUser
  rw [List.reverse_cons, List.findSome?_append]
  cases h : e.lookupResult <;> simp [List.findSome?, h]

theorem countP_lookup (l : List Event) (h : ∀ e ∈ l, e.isLookupPhase = true) :
    l.countP Event.isUserStoreCall = 0 ∧ l.countP Event.isSessionIssuerCall = 0 ∧
    l.countP Event.isSSORedirect = 0 ∧ l.countP Event.isAddUser = 0 ∧
    l.countP Event.isGetUser = 0 := by
  simp only [List.countP_eq_zero]
  refine ⟨?_, ?_, ?_, ?_, ?_⟩ <;> intro e he <;> have := lookupPhase_quiet e (h e he) <;> simp [this]

theorem handleGithubCallback_not_admin (env : Env σ) (r : Request) (w : World σ) (u : HostUser)
    (hlast : lastGetUser (newEvents w (handleGithubCallback env r w).2) = some (some u))
    (hadmin : u.IsAdmin = false) (hsuper : u.IsSuperAdmin = false) :
    (newEvents w (handleGithubCallback env r w).2).filter Event.isResponse =
      [Event.userNotAllowed] ∧
    (newEvents w (handleGithubCallback env r w).2).countP Event.isSessionIssuerCall = 0 ∧
    (newEvents w (handleGithubCallback env r w).2).countP Event.isSSORedirect = 0 := by
  obtain ⟨added, htr, hadd⟩ := getUserInfo_lookup_phase .github env r.state r.code w
  obtain ⟨-, hc2, hc3, -, -⟩ := countP_lookup added hadd
  have hl := lastGetUser_lookup added hadd
  have hf := filter_response_lookup added hadd
  simp only [getUserInfo] at htr
  simp only [handleGithubCallback, getStateAndCode] at hlast ⊢
  rcases hres : getGithubUserInfo env r.state r.code w with ⟨res, w1⟩
  rw [hres] at htr hlast
  rcases w1 with ⟨x, ap, ov, tr⟩
  simp only at htr
  subst htr
  simp only [getUser, addUser, fetchPassValue, verifyAuthRequest, handleOauthNotConfigured,
    handleOauthUserNotFound, handleOauthUserNotAllowed, performSSORedirect, World.emit,
    World.withExt, newEvents] at hlast ⊢
  revert hlast
  cases res with
  | panic m => simp [lastGetUser_append, hl, lastGetUser_nil]
  | ret pr =>
    rcases pr with ⟨content, err⟩
    cases err with
    | some e =>
      simp [lastGetUser_append, hl, lastGetUser_cons, lastGetUser_nil, Event.lookupResult]
    | none =>
      cases content with
      | none => simp [lastGetUser_append, hl]
      | some content =>
        simp only
        repeat' split
        all_goals (try simp only [Prod.mk.injEq] at *)
        all_goals (try casesm* _ ∧ _)
        all_goals subst_vars
        all_goals
          simp_all [lastGetUser_append, lastGetUser_cons, lastGetUser_nil, Event.lookupResult,
            Event.isResponse, Event.isSessionIssuerCall, Event.isSSORedirect, Except.toOption,
            List.countP_cons, List.countP_nil]
        all_goals
          intro h
          subst h
          simp_all

theorem handleGoogleCallback_not_admin (env : Env σ) (r : Request) (w : World σ) (u : HostUser)
    (hlast : lastGetUser (newEvents w (handleGoogleCallback env r w).2) = some (some u))
    (hadmin : u.IsAdmin = false) (hsuper : u.IsSuperAdmin = false) :
    (newEvents w (handleGoogleCallback env r w).2).filter Event.isResponse =
      [Event.userNotAllowed] ∧
    (newEvents w (handleGoogleCallback env r w).2).countP Event.isSessionIssuerCall = 0 ∧
    (newEvents w (handleGoogleCallback env r w).2).countP Event.isSSORedirect = 0 := by
  obtain ⟨added, htr, hadd⟩ := getUserInfo_lookup_phase .google env r.state r.code w
  obtain ⟨-, hc2, hc3, -, -⟩ := countP_lookup added hadd
  have hl := lastGetUser_lookup added hadd
  have hf := filter_response_lookup added hadd
  simp only [getUserInfo] at htr
  simp only [handleGoogleCallback, getStateAndCode] at hlast ⊢
  rcases hres : getGoogleUserInfo env r.state r.code w with ⟨res, w1⟩
  rw [hres] at htr hlast
  rcases w1 with ⟨x, ap, ov, tr⟩
  simp only at htr
  subst htr
  simp only [getUser, addUser, fetchPassValue, verifyAuthRequest, handleOauthNotConfigured,
    handleOauthUserNotFound, handleOauthUserNotAllowed, performSSORedirect, World.emit,
    World.withExt, newEvents] at hlast ⊢
  revert hlast
  cases res with
  | panic m => simp [lastGetUser_append, hl, lastGetUser_nil]
  | ret pr =>
    rcases pr with ⟨content, err⟩
    cases err with
    | some e =>
      simp [lastGetUser_append, hl, lastGetUser_cons, lastGetUser_nil, Event.lookupResult]
    | none =>
      cases content with
      | none => simp [lastGetUser_append, hl]
      | some content =>
        simp only
        repeat' split
        all_goals (try simp only [Prod.mk.injEq] at *)
        all_goals (try casesm* _ ∧ _)
        all_goals subst_vars
        all_goals
          simp_all [lastGetUser_append, lastGetUser_cons, lastGetUser_nil, Event.lookupResult,
            Event.isResponse, Event.isSessionIssuerCall, Event.isSSORedirect, Except.toOption,
            List.countP_cons, List.countP_nil]
        all_goals
          intro h
          subst h
          simp_all

theorem handleOIDCCallback_not_admin (env : Env σ) (r : Request) (w : World σ) (u : HostUser)
    (hlast : lastGetUser (newEvents w (handleOIDCCallback env r w).2) = some (some u))
    (hadmin : u.IsAdmin = false) (hsuper : u.IsSuperAdmin = false) :
    (newEvents w (handleOIDCCallback env r w).2).filter Event.isResponse =
      [Event.userNotAllowed] ∧
    (newEvents w (handleOIDCCallback env r w).2).countP Event.isSessionIssuerCall = 0 ∧
    (newEvents w (handleOIDCCallback env r w).2).countP Event.isSSORedirect = 0 := by
  obtain ⟨added, htr, hadd⟩ := getUserInfo_lookup_phase .oidc env r.state r.code w
  obtain ⟨-, hc2, hc3, -, -⟩ := countP_lookup added hadd
  have hl := lastGetUser_lookup added hadd
  have hf := filter_response_lookup added hadd
  simp only [getUserInfo] at htr
  simp only [handleOIDCCallback, getStateAndCode] at hlast ⊢
  rcases hres : getOIDCUserInfo env r.state r.code w with ⟨res, w1⟩
  rw [hres] at htr hlast
  rcases w1 with ⟨x, ap, ov, tr⟩
  simp only at htr
  subst htr
  simp only [getUser, addUser, fetchPassValue, verifyAuthRequest, handleOauthNotConfigured,
    handleOauthUserNotFound, handleOauthUserNotAllowed, performSSORedirect, World.emit,
    World.withExt, newEvents] at hlast ⊢
  revert hlast
  cases res with
  | panic m => simp [lastGetUser_append, hl, lastGetUser_nil]
  | ret pr =>
    rcases pr with ⟨content, err⟩
    cases err with
    | some e =>
      simp [lastGetUser_append, hl, lastGetUser_cons, lastGetUser_nil, Event.lookupResult]
    | none =>
      cases content with
      | none => simp [lastGetUser_append, hl]
      | some content =>
        simp only
        repeat' split
        all_goals (try simp only [Prod.mk.injEq] at *)
        all_goals (try casesm* _ ∧ _)
        all_goals subst_vars
        all_goals
          simp_all [lastGetUser_append, lastGetUser_cons, lastGetUser_nil, Event.lookupResult,
            Event.isResponse, Event.isSessionIssuerCall, Event.isSSORedirect, Except.toOption,
            List.countP_cons, List.countP_nil]
        all_goals
          intro h
          subst h
          simp_all

/-- C3: for each provider and every callback in which the account finally
obtained from the user store (the answer of the last GetUser call) has IsAdmin =
false and IsSuperAdmin = false, the only response written is "user not allowed",
the session issuer is never called and no SSO redirect is performed. -/
theorem handleCallback_not_admin (p : Provider) (env : Env σ) (r : Request) (w : World σ)
    (u : HostUser)
    (hlast : lastGetUser (newEvents w (handleCallback p env r w).2) = some (some u))
    (hadmin : u.IsAdmin = false) (hsuper : u.IsSuperAdmin = false) :
    (newEvents w (handleCallback p env r w).2).filter Event.isResponse =
      [Event.userNotAllowed] ∧
    (newEvents w (handleCallback p env r w).2).countP Event.isSessionIssuerCall = 0 ∧
    (newEvents w (handleCallback p env r w).2).countP Event.isSSORedirect = 0 := by
  cases p
  · exact handleGithubCallback_not_admin env r w u hlast hadmin hsuper
  · exact handleGoogleCallback_not_admin env r w u hlast hadmin hsuper
  · exact handleOIDCCallback_not_admin env r w u hlast hadmin hsuper

/-- A concrete Google callback for a new user: the account is created, re-fetched
with both admin flags false, and the answer is "user not allowed". -/
theorem handleCallback_not_admin_witness :
    lastGetUser (newEvents (configuredWorld [])
        (handleCallback .google (scripted happyScript) (Request.mk "S1" "C1")
          (configuredWorld [])).2) = some (some (HostUser.mk "alice@example.com" false false)) ∧
    (newEvents (configuredWorld [])
        (handleCallback .google (scripted happyScript) (Request.mk "S1" "C1")
          (configuredWorld [])).2).filter Event.isResponse = [Event.userNotAllowed] ∧
    (newEvents (configuredWorld [])
        (handleCallback .google (scripted happyScript) (Request.mk "S1" "C1")
          (configuredWorld [])).2).countP Event.isSessionIssuerCall = 0 ∧
    (newEvents (configuredWorld [])
        (handleCallback .google (scripted happyScript) (Request.mk "S1" "C1")
          (configuredWorld [])).2).countP Event.isSSORedirect = 0 :=
  ⟨by decide,
    handleCallback_not_admin .google (scripted happyScript) (Request.mk "S1" "C1")
      (configuredWorld []) (HostUser.mk "alice@example.com" false false) (by decide) rfl rfl⟩

theorem handleGithubCallback_creates_once (env : Env σ) (r : Request) (w w1 : World σ)
    (content : OAuthUser)
    (hinfo : getGithubUserInfo env r.state r.code w = (.ret (some content, none), w1))
    (hmiss : (env.getUser content.Login w1.ext).1.toOption = none) :
    (∃ rest,
      newEvents w1 (handleGithubCallback env r w).2 =
        Event.getUser content.Login none ::
          Event.addUser content.Login true
            (env.addUser content.Login true (env.getUser content.Login w1.ext).2).1 :: rest ∧
      rest.countP Event.isAddUser = 0 ∧
      ((env.addUser content.Login true (env.getUser content.Login w1.ext).2).1 ≠ none → rest = []) ∧
      ((env.addUser content.Login true (env.getUser content.Login w1.ext).2).1 = none →
        ∃ found rest1, rest = Event.getUser content.Login found :: rest1)) ∧
    (newEvents w (handleGithubCallback env r w).2).countP Event.isAddUser = 1 := by
  obtain ⟨added, htr, hadd⟩ := getUserInfo_lookup_phase .github env r.state r.code w
  obtain ⟨-, -, -, hc4, -⟩ := countP_lookup added hadd
  simp only [getUserInfo] at htr
  simp only [handleGithubCallback, getStateAndCode]
  rw [hinfo] at htr ⊢
  rcases w1 with ⟨x, ap, ov, tr⟩
  simp only at htr hmiss
  subst htr
  simp only [getUser, addUser, fetchPassValue, verifyAuthRequest, handleOauthNotConfigured,
    handleOauthUserNotFound, handleOauthUserNotAllowed, performSSORedirect, World.emit,
    World.withExt, newEvents]
  repeat' split
  all_goals (try simp only [Prod.mk.injEq] at *)
  all_goals (try casesm* _ ∧ _)
  all_goals subst_vars
  all_goals
    simp_all [Event.isAddUser, Except.toOption, List.countP_cons, List.countP_nil]

theorem handleGoogleCallback_creates_once (env : Env σ) (r : Request) (w w1 : World σ)
    (content : OAuthUser)
    (hinfo : getGoogleUserInfo env r.state r.code w = (.ret (some content, none), w1))
    (hmiss : (env.getUser content.Email w1.ext).1.toOption = none) :
    (∃ rest,
      newEvents w1 (handleGoogleCallback env r w).2 =
        Event.getUser content.Email none ::
          Event.addUser content.Email true
            (env.addUser content.Email true (env.getUser content.Email w1.ext).2).1 :: rest ∧
      rest.countP Event.isAddUser = 0 ∧
      ((env.addUser content.Email true (env.getUser content.Email w1.ext).2).1 ≠ none → rest = []) ∧
      ((env.addUser content.Email true (env.getUser content.Email w1.ext).2).1 = none →
        ∃ found rest1, rest = Event.getUser content.Email found :: rest1)) ∧
    (newEvents w (handleGoogleCallback env r w).2).countP Event.isAddUser = 1 := by
  obtain ⟨added, htr, hadd⟩ := getUserInfo_lookup_phase .google env r.state r.code w
  obtain ⟨-, -, -, hc4, -⟩ := countP_lookup added hadd
  simp only [getUserInfo] at htr
  simp only [handleGoogleCallback, getStateAndCode]
  rw [hinfo] at htr ⊢
  rcases w1 with ⟨x, ap, ov, tr⟩
  simp only at htr hmiss
  subst htr
  simp only [getUser, addUser, fetchPassValue, verifyAuthRequest, handleOauthNotConfigured,
    handleOauthUserNotFound, handleOauthUserNotAllowed, performSSORedirect, World.emit,
    World.withExt, newEvents]
  repeat' split
  all_goals (try simp only [Prod.mk.injEq] at *)
  all_goals (try casesm* _ ∧ _)
  all_goals subst_vars
  all_goals
    simp_all [Event.isAddUser, Except.toOption, List.countP_cons, List.countP_nil]

theorem handleOIDCCallback_creates_once (env : Env σ) (r : Request) (w w1 : World σ)
    (content : OAuthUser)
    (hinfo : getOIDCUserInfo env r.state r.code w = (.ret (some content, none), w1))
    (hmiss : (env.getUser content.Email w1.ext).1.toOption = none) :
    (∃ rest,
      newEvents w1 (handleOIDCCallback env r w).2 =
        Event.getUser content.Email none ::
          Event.addUser content.Email true
            (env.addUser content.Email true (env.getUser content.Email w1.ext).2).1 :: rest ∧
      rest.countP Event.isAddUser = 0 ∧
      ((env.addUser content.Email true (env.getUser content.Email w1.ext).2).1 ≠ none → rest = []) ∧
      ((env.addUser content.Email true (env.getUser content.Email w1.ext).2).1 = none →
        ∃ found rest1, rest = Event.getUser content.Email found :: rest1)) ∧
    (newEvents w (handleOIDCCallback env r w).2).countP Event.isAddUser = 1 := by
  obtain ⟨added, htr, hadd⟩ := getUserInfo_lookup_phase .oidc env r.state r.code w
  obtain ⟨-, -, -, hc4, -⟩ := countP_lookup added hadd
  simp only [getUserInfo] at htr
  simp only [handleOIDCCallback, getStateAndCode]
  rw [hinfo] at htr ⊢
  rcases w1 with ⟨x, ap, ov, tr⟩
  simp only at htr hmiss
  subst htr
  simp only [getUser, addUser, fetchPassValue, verifyAuthRequest, handleOauthNotConfigured,
    handleOauthUserNotFound, handleOauthUserNotAllowed, performSSORedirect, World.emit,
    World.withExt, newEvents]
  repeat' split
  all_goals (try simp only [Prod.mk.injEq] at *)
  all_goals (try casesm* _ ∧ _)
  all_goals subst_vars
  all_goals
    simp_all [Event.isAddUser, Except.toOption, List.countP_cons, List.countP_nil]

/-- C8: for each provider, when the identity lookup succeeds and the first
GetUser(username) misses, the handler calls addUser(username, true) right after
that lookup, exactly once in the whole callback; if addUser succeeds the next
event is the second GetUser(username), and if addUser fails nothing follows: no
further lookup, no session-issuer call, no response and no SSO redirect. -/
theorem handleCallback_creates_once (p : Provider) (env : Env σ) (r : Request) (w w1 : World σ)
    (content : OAuthUser)
    (hinfo : getUserInfo p env r.state r.code w = (.ret (some content, none), w1))
    (hmiss : (env.getUser (usernameOf p content) w1.ext).1.toOption = none) :
    (∃ rest,
      newEvents w1 (handleCallback p env r w).2 =
        Event.getUser (usernameOf p content) none ::
          Event.addUser (usernameOf p content) true
            (env.addUser (usernameOf p content) true
              (env.getUser (usernameOf p content) w1.ext).2).1 :: rest ∧
      rest.countP Event.isAddUser = 0 ∧
      ((env.addUser (usernameOf p content) true
          (env.getUser (usernameOf p content) w1.ext).2).1 ≠ none → rest = []) ∧
      ((env.addUser (usernameOf p content) true
          (env.getUser (usernameOf p content) w1.ext).2).1 = none →
        ∃ found rest1, rest = Event.getUser (usernameOf p content) found :: rest1)) ∧
    (newEvents w (handleCallback p env r w).2).countP Event.isAddUser = 1 := by
  cases p
  · exact handleGithubCallback_creates_once env r w w1 content hinfo hmiss
  · exact handleGoogleCallback_creates_once env r w w1 content hinfo hmiss
  · exact handleOIDCCallback_creates_once env r w w1 content hinfo hmiss

/-- A concrete Google callback on an empty user store: the first lookup misses and
addUser is called once. -/
theorem handleCallback_creates_once_witness :
    (getUserInfo .google (scripted happyScript) "S1" "C1" (configuredWorld [])).1 =
      .ret (some (OAuthUser.mk "alice" "alice@example.com" happyScript.tokenJSON), none) ∧
    ((scripted happyScript).getUser "alice@example.com"
      (getUserInfo .google (scripted happyScript) "S1" "C1"
        (configuredWorld [])).2.ext).1.toOption = none ∧
    (newEvents (configuredWorld [])
      (handleCallback .google (scripted happyScript) (Request.mk "S1" "C1")
        (configuredWorld [])).2).countP Event.isAddUser = 1 :=
  ⟨by decide, by decide,
    (handleCallback_creates_once .google (scripted happyScript) (Request.mk "S1" "C1")
      (configuredWorld [])
      (getUserInfo .google (scripted happyScript) "S1" "C1" (configuredWorld [])).2
      (OAuthUser.mk "alice" "alice@example.com" happyScript.tokenJSON)
      (Prod.ext (by decide) rfl) (by decide)).2⟩

theorem initOIDC_on_error (env : Env σ) (redirectURL clientID clientSecret issuer : String)
    (w : World σ) (err : String) (hfail : (env.newProvider issuer w.ext).1 = .error err) :
    initOIDC env redirectURL clientID clientSecret issuer w =
      (w.withExt (env.newProvider issuer w.ext).2).emit (.discovery issuer) := by
  simp only [initOIDC, newProvider, hfail]

/-- C7 (as amended): if initOIDC is called and issuer discovery fails, both globals
are left as they were before the call; when no configuration was held before
the call, a following handleOIDCLogin responds "not configured", writes no
redirect and does not call SetState. -/
theorem initOIDC_failed_discovery (env : Env σ) (redirectURL clientID clientSecret issuer : String)
    (r : Request) (w : World σ) (err : String)
    (hfail : (env.newProvider issuer w.ext).1 = .error err) :
    (initOIDC env redirectURL clientID clientSecret issuer w).auth_provider = w.auth_provider ∧
    (initOIDC env redirectURL clientID clientSecret issuer w).oidc_verifier = w.oidc_verifier ∧
    (w.auth_provider = none →
      (newEvents (initOIDC env redirectURL clientID clientSecret issuer w)
          (handleOIDCLogin env r
            (initOIDC env redirectURL clientID clientSecret issuer w)).2).filter Event.isResponse =
        [Event.notConfigured] ∧
      (newEvents (initOIDC env redirectURL clientID clientSecret issuer w)
          (handleOIDCLogin env r
            (initOIDC env redirectURL clientID clientSecret issuer w)).2).countP Event.isRedirect = 0 ∧
      (newEvents (initOIDC env redirectURL clientID clientSecret issuer w)
          (handleOIDCLogin env r
            (initOIDC env redirectURL clientID clientSecret issuer w)).2).countP Event.isSetState = 0) := by
  rw [initOIDC_on_error env redirectURL clientID clientSecret issuer w err hfail]
  refine ⟨rfl, rfl, fun hnone => ?_⟩
  have h := (handleLogin_cases .oidc env r
    ((w.withExt (env.newProvider issuer w.ext).2).emit (.discovery issuer))).2
  simp only [handleLogin] at h
  have hap : ((w.withExt (env.newProvider issuer w.ext).2).emit (.discovery issuer)).auth_provider
      = none := hnone
  rw [hap] at h
  simp only at h
  rw [h]
  simp [Event.isResponse, Event.isRedirect, Event.isSetState]

/-- A concrete failed discovery on a fresh adapter: the following login answers
"not configured". -/
theorem initOIDC_failed_discovery_witness :
    ((scripted unreachableScript).newProvider "https://down.example.com" (freshWorld []).ext).1 =
      .error "Get \"https://down.example.com/.well-known/openid-configuration\": dial tcp: i/o timeout" ∧
    (freshWorld ([] : List HostUser)).auth_provider = none ∧
    (newEvents
        (initOIDC (scripted unreachableScript) "https://host/cb" "client-1" "secret-1"
          "https://down.example.com" (freshWorld []))
        (handleOIDCLogin (scripted unreachableScript) (Request.mk "" "")
          (initOIDC (scripted unreachableScript) "https://host/cb" "client-1" "secret-1"
            "https://down.example.com" (freshWorld []))).2).filter Event.isResponse =
      [Event.notConfigured] :=
  ⟨rfl, rfl,
    ((initOIDC_failed_discovery (scripted unreachableScript) "https://host/cb" "client-1"
      "secret-1" "https://down.example.com" (Request.mk "" "") (freshWorld []) _ rfl).2.2 rfl).1⟩

/-- C7 (counterexample): a configuration is held, initOIDC is called and issuer
discovery fails; the following handleOIDCLogin does not respond "not
configured" but redirects, with status 307, to the authorization URL of the
configuration held before the call. -/
theorem initOIDC_failed_keeps_stale_config :
    ((scripted unreachableScript).newProvider "https://down.example.com"
      (configuredWorld []).ext).1.toOption = none ∧
    newEvents
        (initOIDC (scripted unreachableScript) "https://host/cb" "client-2" "secret-2"
          "https://down.example.com" (configuredWorld []))
        (handleOIDCLogin (scripted unreachableScript) (Request.mk "" "")
          (initOIDC (scripted unreachableScript) "https://host/cb" "client-2" "secret-2"
            "https://down.example.com" (configuredWorld []))).2 =
      [Event.randomString 16 "S1", Event.setState "S1" none,
        Event.redirect (sampleConfig.Endpoint ++ "?client_id=" ++ sampleConfig.ClientID ++ "&state=S1") 307] := by
  decide

variable {τ : Type}

theorem getUserInfo_rejected_iff (p : Provider) (env : Env σ) (state code : String)
    (w : World σ) :
    (getUserInfo p env state code w).1 = .ret (none, some "invalid oauth state") ↔
      absentFromBothTiers env state w.ext = true := by
  rw [← invalidOauthState_fst env state w]
  cases hb : (invalidOauthState env state w).1
  · obtain ⟨_, _, _, h3⟩ := getUserInfo_accept p env state code w hb
    exact ⟨fun h => absurd h h3, fun h => by simp at h⟩
  · rw [getUserInfo_reject p env state code w hb]
    exact ⟨fun _ => rfl, fun _ => rfl⟩

theorem invalidOauthState_tiers (base : Env τ) (t : String) (w : World (StateTiers × τ)) :
    (invalidOauthState (withStateTiers base) t w).2.ext.1 = (specIsStateValid t w.ext.1).2 := by
  unfold invalidOauthState isStateValid isStateCached
  simp only [World.withExt, World.emit, withStateTiers, specIsStateCached]
  split <;> rfl

theorem getGithubUserInfo_tiers (base : Env τ) (t code : String) (w : World (StateTiers × τ)) :
    (getGithubUserInfo (withStateTiers base) t code w).2.ext.1 = (specIsStateValid t w.ext.1).2 := by
  rw [← invalidOauthState_tiers base t w]
  unfold getGithubUserInfo
  rcases invalidOauthState (withStateTiers base) t w with ⟨b, w1⟩
  rcases w1 with ⟨x, ap, ov, tr⟩
  cases b <;> cases ap <;> cases ov <;>
  · simp only [exchange, httpDo, readAll, verifyIDToken, claims, World.emit, World.withExt,
      withStateTiers]
    repeat' split
    all_goals (try simp only [Prod.mk.injEq] at *)
    all_goals (try casesm* _ ∧ _)
    all_goals subst_vars
    all_goals simp_all

theorem getGoogleUserInfo_tiers (base : Env τ) (t code : String) (w : World (StateTiers × τ)) :
    (getGoogleUserInfo (withStateTiers base) t code w).2.ext.1 = (specIsStateValid t w.ext.1).2 := by
  rw [← invalidOauthState_tiers base t w]
  unfold getGoogleUserInfo
  rcases invalidOauthState (withStateTiers base) t w with ⟨b, w1⟩
  rcases w1 with ⟨x, ap, ov, tr⟩
  cases b <;> cases ap <;> cases ov <;>
  · simp only [exchange, httpDo, readAll, verifyIDToken, claims, World.emit, World.withExt,
      withStateTiers]
    repeat' split
    all_goals (try simp only [Prod.mk.injEq] at *)
    all_goals (try casesm* _ ∧ _)
    all_goals subst_vars
    all_goals simp_all

theorem getOIDCUserInfo_tiers (base : Env τ) (t code : String) (w : World (StateTiers × τ)) :
    (getOIDCUserInfo (withStateTiers base) t code w).2.ext.1 = (specIsStateValid t w.ext.1).2 := by
  rw [← invalidOauthState_tiers base t w]
  unfold getOIDCUserInfo
  rcases invalidOauthState (withStateTiers base) t w with ⟨b, w1⟩
  rcases w1 with ⟨x, ap, ov, tr⟩
  cases b <;> cases ap <;> cases ov <;>
  · simp only [exchange, httpDo, readAll, verifyIDToken, claims, World.emit, World.withExt,
      withStateTiers]
    repeat' split
    all_goals (try simp only [Prod.mk.injEq] at *)
    all_goals (try casesm* _ ∧ _)
    all_goals subst_vars
    all_goals (try simp only [Prod.mk.injEq] at *)
    all_goals (try casesm* _ ∧ _)
    all_goals subst_vars
    all_goals simp_all

theorem getUserInfo_tiers (p : Provider) (base : Env τ) (t code : String)
    (w : World (StateTiers × τ)) :
    (getUserInfo p (withStateTiers base) t code w).2.ext.1 = (specIsStateValid t w.ext.1).2 := by
  cases p
  · exact getGithubUserInfo_tiers base t code w
  · exact getGoogleUserInfo_tiers base t code w
  · exact getOIDCUserInfo_tiers base t code w

theorem absent_withStateTiers (base : Env τ) (t : String) (x : StateTiers × τ) :
    absentFromBothTiers (withStateTiers base) t x = true ↔ t ∉ x.1.store ∧ t ∉ x.1.cache := by
  unfold absentFromBothTiers
  simp only [withStateTiers, specIsStateValid, specIsStateCached]
  by_cases h : t ∈ x.1.store <;> simp [h]

theorem specIsStateValid_consumes (t : String) (s : StateTiers) :
    t ∉ (specIsStateValid t s).2.store ∧ (specIsStateValid t s).2.cache = s.cache := by
  unfold specIsStateValid
  by_cases h : t ∈ s.store <;> simp [h]

/-- C4 (as amended): with the state-token service of the spec (the store lookup
consumes a pending token, the cache lookup only reads), a getUserInfo call
presenting token t passes the state check exactly when t is pending in the
store or held in the cache, and a second getUserInfo call presenting the same
t, store and cache touched by nothing else in between, is rejected with
"invalid oauth state" exactly when the process-local cache does not hold t:
a token not held in the cache validates at most once. -/
theorem getUserInfo_replay_rejected_iff (p : Provider) (base : Env τ) (t c1 c2 : String)
    (w : World (StateTiers × τ)) :
    ((getUserInfo p (withStateTiers base) t c1 w).1 ≠ .ret (none, some "invalid oauth state") ↔
      (t ∈ w.ext.1.store ∨ t ∈ w.ext.1.cache)) ∧
    ((getUserInfo p (withStateTiers base) t c2
        (getUserInfo p (withStateTiers base) t c1 w).2).1 =
      .ret (none, some "invalid oauth state") ↔ t ∉ w.ext.1.cache) := by
  constructor
  · rw [Ne, getUserInfo_rejected_iff, absent_withStateTiers]
    tauto
  · rw [getUserInfo_rejected_iff, absent_withStateTiers, getUserInfo_tiers]
    have h := specIsStateValid_consumes t w.ext.1
    rw [h.2]
    exact ⟨fun hh => hh.2, fun hh => ⟨h.1, hh⟩⟩

/-- C4 (counterexample): token S1 is pending in the durable store and held in the
process-local cache. A first getUserInfo call with S1 passes the state check
through the store and returns the identity; a second call with the same S1,
with store and cache touched by nothing else, is not rejected: the store no
longer knows S1, the cache still holds it, and the call returns the identity
again. The same happens in the OIDC adapter. -/
theorem getUserInfo_validates_twice :
    (getUserInfo .github (withStateTiers (scripted happyScript)) "S1" "C1" cachedTokenWorld).1 =
      .ret (some (OAuthUser.mk "alice" "alice@example.com" happyScript.tokenJSON), none) ∧
    newEvents
        (getUserInfo .github (withStateTiers (scripted happyScript)) "S1" "C1" cachedTokenWorld).2
        (getUserInfo .github (withStateTiers (scripted happyScript)) "S1" "C2"
          (getUserInfo .github (withStateTiers (scripted happyScript)) "S1" "C1"
            cachedTokenWorld).2).2 =
      [Event.isStateValid "S1" "" false, Event.isStateCached "S1" true, Event.exchange "C2",
        Event.httpRequest (HttpRequest.mk "GET" "https://api.github.com/user"
          (some "token gho_token") none),
        Event.body happyScript.userInfoBody] ∧
    (getUserInfo .github (withStateTiers (scripted happyScript)) "S1" "C2"
        (getUserInfo .github (withStateTiers (scripted happyScript)) "S1" "C1"
          cachedTokenWorld).2).1 =
      .ret (some (OAuthUser.mk "alice" "alice@example.com" happyScript.tokenJSON), none) ∧
    (getUserInfo .oidc (withStateTiers (scripted happyScript)) "S1" "C2"
        (getUserInfo .oidc (withStateTiers (scripted happyScript)) "S1" "C1"
          cachedTokenWorld).2).1 =
      .ret (some (OAuthUser.mk "" "alice@example.com" ""), none) := by
  decide

theorem storeMember_keeps_error (acc : OAuthUser × Option String) (m : String × JValue)
    (h : acc.2.isSome = true) : (storeMember acc m).2.isSome = true := by
  unfold storeMember saveError
  rcases acc with ⟨u, e⟩
  cases e with
  | none => simp at h
  | some s => split_ifs <;> simp

theorem foldl_storeMember_keeps_error (ms : List (String × JValue))
    (acc : OAuthUser × Option String) (h : acc.2.isSome = true) :
    (ms.foldl storeMember acc).2.isSome = true := by
  induction ms generalizing acc with
  | nil => simpa using h
  | cons m ms ih => exact ih _ (storeMember_keeps_error acc m h)

theorem storeMember_malformed (acc : OAuthUser × Option String) (m : String × JValue)
    (key : String) (hkey : key = "login" ∨ key = "email")
    (hm : (foldKey m.1 == key.data &&
      (match m.2 with
        | .string _ => false
        | .null => false
        | _ => true)) = true) :
    (storeMember acc m).2.isSome = true := by
  rcases acc with ⟨u, e⟩
  rcases m with ⟨k, v⟩
  simp only [Bool.and_eq_true, beq_iff_eq] at hm
  obtain ⟨hk, hv⟩ := hm
  have hle : ("login" : String).data ≠ ("email" : String).data := by decide
  cases e with
  | some s => exact storeMember_keeps_error _ _ rfl
  | none =>
    rcases hkey with rfl | rfl
    · cases v <;> simp_all [storeMember, storeString, saveError]
    · have : foldKey k ≠ ("login" : String).data := by rw [hk]; exact fun h => hle h.symm
      cases v <;> simp_all [storeMember, storeString, saveError]

theorem unmarshal_malformed (key : String) (hkey : key = "login" ∨ key = "email")
    (pl : Payload) (u : OAuthUser) (h : malformedField key pl = true) :
    (unmarshalOAuthUser pl u).2.isSome = true := by
  cases pl with
  | invalid => simp [unmarshalOAuthUser]
  | null => simp [malformedField] at h
  | nonObject => simp [unmarshalOAuthUser]
  | object members =>
    simp only [malformedField] at h
    simp only [unmarshalOAuthUser]
    generalize (u, (none : Option String)) = acc
    induction members generalizing acc with
    | nil => simp at h
    | cons m ms ih =>
      rw [List.any_cons, Bool.or_eq_true] at h
      rw [List.foldl_cons]
      rcases h with h | h
      · exact foldl_storeMember_keeps_error ms _ (storeMember_malformed acc m key hkey h)
      · exact ih h _

theorem receivedPayload_nil : receivedPayload [] = none := rfl

theorem receivedPayload_cons (e : Event) (l : List Event) :
    receivedPayload (e :: l) = (e.identityPayload).or (receivedPayload l) := by
  unfold receivedPayload
  cases h : e.identityPayload <;> simp [List.findSome?, h]

theorem receivedPayload_append (l1 l2 : List Event) :
    receivedPayload (l1 ++ l2) = (receivedPayload l1).or (receivedPayload l2) := by
  unfold receivedPayload
  rw [List.findSome?_append]

theorem receivedPayload_stateCheck (env : Env σ) (state : String) (x : σ) :
    receivedPayload (stateCheckEvents env state x) = none := by
  unfold stateCheckEvents
  split <;> simp [receivedPayload_cons, receivedPayload_nil, Event.identityPayload]

theorem getGithubUserInfo_malformed (env : Env σ) (state code : String) (w : World σ)
    (pl : Payload)
    (hrecv : receivedPayload (newEvents w (getGithubUserInfo env state code w).2) = some pl)
    (hbad : (unmarshalOAuthUser pl (OAuthUser.mk "" "" "")).2.isSome = true) :
    ∃ u err, (getGithubUserInfo env state code w).1 = .ret (u, some err) := by
  have htr := invalidOauthState_trace env state w
  have hsc := receivedPayload_stateCheck env state w.ext
  revert hrecv
  unfold getGithubUserInfo
  rcases hi : invalidOauthState env state w with ⟨b, w1⟩
  rw [hi] at htr
  rcases w1 with ⟨x, ap, ov, tr⟩
  simp only at htr
  subst htr
  cases b <;> cases ap <;> cases ov <;>
  · simp only [exchange, httpDo, readAll, verifyIDToken, claims, World.emit, World.withExt,
      newEvents]
    repeat' split
    all_goals (try simp only [Prod.mk.injEq] at *)
    all_goals (try casesm* _ ∧ _)
    all_goals subst_vars
    all_goals
      simp_all [Event.identityPayload, receivedPayload_append, receivedPayload_cons,
        receivedPayload_nil]
    all_goals
      intro h
      subst h
      simp_all

theorem getGoogleUserInfo_malformed (env : Env σ) (state code : String) (w : World σ)
    (pl : Payload)
    (hrecv : receivedPayload (newEvents w (getGoogleUserInfo env state code w).2) = some pl)
    (hbad : (unmarshalOAuthUser pl (OAuthUser.mk "" "" "")).2.isSome = true) :
    ∃ u err, (getGoogleUserInfo env state code w).1 = .ret (u, some err) := by
  have htr := invalidOauthState_trace env state w
  have hsc := receivedPayload_stateCheck env state w.ext
  revert hrecv
  unfold getGoogleUserInfo
  rcases hi : invalidOauthState env state w with ⟨b, w1⟩
  rw [hi] at htr
  rcases w1 with ⟨x, ap, ov, tr⟩
  simp only at htr
  subst htr
  cases b <;> cases ap <;> cases ov <;>
  · simp only [exchange, httpDo, readAll, verifyIDToken, claims, World.emit, World.withExt,
      newEvents]
    repeat' split
    all_goals (try simp only [Prod.mk.injEq] at *)
    all_goals (try casesm* _ ∧ _)
    all_goals subst_vars
    all_goals
      simp_all [Event.identityPayload, receivedPayload_append, receivedPayload_cons,
        receivedPayload_nil]
    all_goals
      intro h
      subst h
      simp_all

theorem getOIDCUserInfo_malformed (env : Env σ) (state code : String) (w : World σ)
    (pl : Payload)
    (hrecv : receivedPayload (newEvents w (getOIDCUserInfo env state code w).2) = some pl)
    (hbad : (unmarshalOAuthUser pl (OAuthUser.mk "" "" "")).2.isSome = true) :
    ∃ u err, (getOIDCUserInfo env state code w).1 = .ret (u, some err) := by
  have htr := invalidOauthState_trace env state w
  have hsc := receivedPayload_stateCheck env state w.ext
  revert hrecv
  unfold getOIDCUserInfo
  rcases hi : invalidOauthState env state w with ⟨b, w1⟩
  rw [hi] at htr
  rcases w1 with ⟨x, ap, ov, tr⟩
  simp only at htr
  subst htr
  cases b <;> cases ap <;> cases ov <;>
  · simp only [exchange, httpDo, readAll, verifyIDToken, claims, World.emit, World.withExt,
      newEvents]
    repeat' split
    all_goals (try simp only [Prod.mk.injEq] at *)
    all_goals (try casesm* _ ∧ _)
    all_goals subst_vars
    all_goals (try simp only [Prod.mk.injEq] at *)
    all_goals (try casesm* _ ∧ _)
    all_goals subst_vars
    all_goals
      simp_all [Event.identityPayload, receivedPayload_append, receivedPayload_cons,
        receivedPayload_nil]
    all_goals
      intro h
      subst h
      simp_all

theorem getUserInfo_malformed (p : Provider) (env : Env σ) (state code : String) (w : World σ)
    (pl : Payload)
    (hrecv : receivedPayload (newEvents w (getUserInfo p env state code w).2) = some pl)
    (hbad : malformedField (keyOf p) pl = true) :
    ∃ u err, (getUserInfo p env state code w).1 = .ret (u, some err) := by
  cases p
  · exact getGithubUserInfo_malformed env state code w pl hrecv
      (unmarshal_malformed "login" (Or.inl rfl) pl _ hbad)
  · exact getGoogleUserInfo_malformed env state code w pl hrecv
      (unmarshal_malformed "email" (Or.inr rfl) pl _ hbad)
  · exact getOIDCUserInfo_malformed env state code w pl hrecv
      (unmarshal_malformed "email" (Or.inr rfl) pl _ hbad)

theorem handleCallback_of_error (p : Provider) (env : Env σ) (r : Request) (w : World σ)
    (u : Option OAuthUser) (err : String)
    (h : (getUserInfo p env r.state r.code w).1 = .ret (u, some err)) :
    handleCallback p env r w =
      (.ret (), handleOauthNotConfigured (getUserInfo p env r.state r.code w).2) := by
  cases p <;>
  · simp only [getUserInfo] at h
    simp only [handleCallback, handleGithubCallback, handleGoogleCallback, handleOIDCCallback,
      getStateAndCode, getUserInfo]
    split <;> simp_all

theorem storeMember_other_login (acc : OAuthUser × Option String) (m : String × JValue)
    (h : foldKey m.1 ≠ ("login" : String).data) : (storeMember acc m).1.Login = acc.1.Login := by
  unfold storeMember
  rw [if_neg h]
  split_ifs <;> rfl

theorem storeMember_other_email (acc : OAuthUser × Option String) (m : String × JValue)
    (h : foldKey m.1 ≠ ("email" : String).data) : (storeMember acc m).1.Email = acc.1.Email := by
  unfold storeMember
  split_ifs <;> rfl

theorem foldl_storeMember_absent_login (ms : List (String × JValue))
    (acc : OAuthUser × Option String)
    (h : (ms.all fun m => foldKey m.1 != ("login" : String).data) = true) :
    (ms.foldl storeMember acc).1.Login = acc.1.Login := by
  induction ms generalizing acc with
  | nil => rfl
  | cons m ms ih =>
    rw [List.all_cons, Bool.and_eq_true] at h
    rw [List.foldl_cons, ih _ h.2]
    exact storeMember_other_login acc m (by simpa using h.1)

theorem foldl_storeMember_absent_email (ms : List (String × JValue))
    (acc : OAuthUser × Option String)
    (h : (ms.all fun m => foldKey m.1 != ("email" : String).data) = true) :
    (ms.foldl storeMember acc).1.Email = acc.1.Email := by
  induction ms generalizing acc with
  | nil => rfl
  | cons m ms ih =>
    rw [List.all_cons, Bool.and_eq_true] at h
    rw [List.foldl_cons, ih _ h.2]
    exact storeMember_other_email acc m (by simpa using h.1)

theorem unmarshal_absent (p : Provider) (pl : Payload) (u : OAuthUser)
    (h : absentField (keyOf p) pl = true) :
    usernameOf p (unmarshalOAuthUser pl u).1 = usernameOf p u := by
  cases pl with
  | invalid => simp [absentField] at h
  | null => rfl
  | nonObject => simp [absentField] at h
  | object members =>
    simp only [absentField] at h
    cases p
    · exact foldl_storeMember_absent_login members _ h
    · exact foldl_storeMember_absent_email members _ h
    · exact foldl_storeMember_absent_email members _ h


theorem getGithubUserInfo_decoded (env : Env σ) (state code : String) (w : World σ)
    (pl : Payload)
    (hrecv : receivedPayload (newEvents w (getGithubUserInfo env state code w).2) = some pl)
    (hok : (unmarshalOAuthUser pl (OAuthUser.mk "" "" "")).2 = none) :
    ∃ u, (getGithubUserInfo env state code w).1 = .ret (some u, none) ∧
      u.Login = (unmarshalOAuthUser pl (OAuthUser.mk "" "" "")).1.Login ∧
      u.Email = (unmarshalOAuthUser pl (OAuthUser.mk "" "" "")).1.Email := by
  have htr := invalidOauthState_trace env state w
  have hsc := receivedPayload_stateCheck env state w.ext
  revert hrecv
  unfold getGithubUserInfo
  rcases hi : invalidOauthState env state w with ⟨b, w1⟩
  rw [hi] at htr
  rcases w1 with ⟨x, ap, ov, tr⟩
  simp only at htr
  subst htr
  cases b <;> cases ap <;> cases ov <;>
  · simp only [exchange, httpDo, readAll, verifyIDToken, claims, World.emit, World.withExt,
      newEvents]
    repeat' split
    all_goals (try simp only [Prod.mk.injEq] at *)
    all_goals (try casesm* _ ∧ _)
    all_goals subst_vars
    all_goals
      simp_all [Event.identityPayload, receivedPayload_append, receivedPayload_cons,
        receivedPayload_nil]
    all_goals
      intro h
      subst h
      simp_all

theorem getGoogleUserInfo_decoded (env : Env σ) (state code : String) (w : World σ)
    (pl : Payload)
    (hrecv : receivedPayload (newEvents w (getGoogleUserInfo env state code w).2) = some pl)
    (hok : (unmarshalOAuthUser pl (OAuthUser.mk "" "" "")).2 = none) :
    ∃ u, (getGoogleUserInfo env state code w).1 = .ret (some u, none) ∧
      u.Login = (unmarshalOAuthUser pl (OAuthUser.mk "" "" "")).1.Login ∧
      u.Email = (unmarshalOAuthUser pl (OAuthUser.mk "" "" "")).1.Email := by
  have htr := invalidOauthState_trace env state w
  have hsc := receivedPayload_stateCheck env state w.ext
  revert hrecv
  unfold getGoogleUserInfo
  rcases hi : invalidOauthState env state w with ⟨b, w1⟩
  rw [hi] at htr
  rcases w1 with ⟨x, ap, ov, tr⟩
  simp only at htr
  subst htr
  cases b <;> cases ap <;> cases ov <;>
  · simp only [exchange, httpDo, readAll, verifyIDToken, claims, World.emit, World.withExt,
      newEvents]
    repeat' split
    all_goals (try simp only [Prod.mk.injEq] at *)
    all_goals (try casesm* _ ∧ _)
    all_goals subst_vars
    all_goals
      simp_all [Event.identityPayload, receivedPayload_append, receivedPayload_cons,
        receivedPayload_nil]
    all_goals
      intro h
      subst h
      simp_all

theorem getOIDCUserInfo_decoded (env : Env σ) (state code : String) (w : World σ)
    (pl : Payload)
    (hrecv : receivedPayload (newEvents w (getOIDCUserInfo env state code w).2) = some pl)
    (hok : (unmarshalOAuthUser pl (OAuthUser.mk "" "" "")).2 = none) :
    ∃ u, (getOIDCUserInfo env state code w).1 = .ret (some u, none) ∧
      u.Login = (unmarshalOAuthUser pl (OAuthUser.mk "" "" "")).1.Login ∧
      u.Email = (unmarshalOAuthUser pl (OAuthUser.mk "" "" "")).1.Email := by
  have htr := invalidOauthState_trace env state w
  have hsc := receivedPayload_stateCheck env state w.ext
  revert hrecv
  unfold getOIDCUserInfo
  rcases hi : invalidOauthState env state w with ⟨b, w1⟩
  rw [hi] at htr
  rcases w1 with ⟨x, ap, ov, tr⟩
  simp only at htr
  subst htr
  cases b <;> cases ap <;> cases ov <;>
  · simp only [exchange, httpDo, readAll, verifyIDToken, claims, World.emit, World.withExt,
      newEvents]
    repeat' split
    all_goals (try simp only [Prod.mk.injEq] at *)
    all_goals (try casesm* _ ∧ _)
    all_goals subst_vars
    all_goals (try simp only [Prod.mk.injEq] at *)
    all_goals (try casesm* _ ∧ _)
    all_goals subst_vars
    all_goals
      simp_all [Event.identityPayload, receivedPayload_append, receivedPayload_cons,
        receivedPayload_nil]
    all_goals
      intro h
      subst h
      simp_all

theorem handleGithubCallback_first_lookup (env : Env σ) (r : Request) (w w1 : World σ)
    (content : OAuthUser)
    (hinfo : getGithubUserInfo env r.state r.code w = (.ret (some content, none), w1)) :
    ∃ rest, newEvents w1 (handleGithubCallback env r w).2 =
      Event.getUser content.Login (env.getUser content.Login w1.ext).1.toOption :: rest := by
  simp only [handleGithubCallback, getStateAndCode]
  rw [hinfo]
  rcases w1 with ⟨x, ap, ov, tr⟩
  simp only [getUser, addUser, fetchPassValue, verifyAuthRequest, handleOauthNotConfigured,
    handleOauthUserNotFound, handleOauthUserNotAllowed, performSSORedirect, World.emit,
    World.withExt, newEvents]
  repeat' split
  all_goals (try simp only [Prod.mk.injEq] at *)
  all_goals (try casesm* _ ∧ _)
  all_goals subst_vars
  all_goals simp_all

theorem handleGoogleCallback_first_lookup (env : Env σ) (r : Request) (w w1 : World σ)
    (content : OAuthUser)
    (hinfo : getGoogleUserInfo env r.state r.code w = (.ret (some content, none), w1)) :
    ∃ rest, newEvents w1 (handleGoogleCallback env r w).2 =
      Event.getUser content.Email (env.getUser content.Email w1.ext).1.toOption :: rest := by
  simp only [handleGoogleCallback, getStateAndCode]
  rw [hinfo]
  rcases w1 with ⟨x, ap, ov, tr⟩
  simp only [getUser, addUser, fetchPassValue, verifyAuthRequest, handleOauthNotConfigured,
    handleOauthUserNotFound, handleOauthUserNotAllowed, performSSORedirect, World.emit,
    World.withExt, newEvents]
  repeat' split
  all_goals (try simp only [Prod.mk.injEq] at *)
  all_goals (try casesm* _ ∧ _)
  all_goals subst_vars
  all_goals simp_all

theorem handleOIDCCallback_first_lookup (env : Env σ) (r : Request) (w w1 : World σ)
    (content : OAuthUser)
    (hinfo : getOIDCUserInfo env r.state r.code w = (.ret (some content, none), w1)) :
    ∃ rest, newEvents w1 (handleOIDCCallback env r w).2 =
      Event.getUser content.Email (env.getUser content.Email w1.ext).1.toOption :: rest := by
  simp only [handleOIDCCallback, getStateAndCode]
  rw [hinfo]
  rcases w1 with ⟨x, ap, ov, tr⟩
  simp only [getUser, addUser, fetchPassValue, verifyAuthRequest, handleOauthNotConfigured,
    handleOauthUserNotFound, handleOauthUserNotAllowed, performSSORedirect, World.emit,
    World.withExt, newEvents]
  repeat' split
  all_goals (try simp only [Prod.mk.injEq] at *)
  all_goals (try casesm* _ ∧ _)
  all_goals subst_vars
  all_goals simp_all

theorem getUserInfo_decoded (p : Provider) (env : Env σ) (state code : String) (w : World σ)
    (pl : Payload)
    (hrecv : receivedPayload (newEvents w (getUserInfo p env state code w).2) = some pl)
    (hok : (unmarshalOAuthUser pl (OAuthUser.mk "" "" "")).2 = none) :
    ∃ u, (getUserInfo p env state code w).1 = .ret (some u, none) ∧
      usernameOf p u = usernameOf p (unmarshalOAuthUser pl (OAuthUser.mk "" "" "")).1 := by
  cases p
  · obtain ⟨u, h1, h2, _⟩ := getGithubUserInfo_decoded env state code w pl hrecv hok
    exact ⟨u, h1, h2⟩
  · obtain ⟨u, h1, _, h3⟩ := getGoogleUserInfo_decoded env state code w pl hrecv hok
    exact ⟨u, h1, h3⟩
  · obtain ⟨u, h1, _, h3⟩ := getOIDCUserInfo_decoded env state code w pl hrecv hok
    exact ⟨u, h1, h3⟩

theorem handleCallback_first_lookup (p : Provider) (env : Env σ) (r : Request) (w w1 : World σ)
    (content : OAuthUser)
    (hinfo : getUserInfo p env r.state r.code w = (.ret (some content, none), w1)) :
    ∃ rest, newEvents w1 (handleCallback p env r w).2 =
      Event.getUser (usernameOf p content)
        (env.getUser (usernameOf p content) w1.ext).1.toOption :: rest := by
  cases p
  · exact handleGithubCallback_first_lookup env r w w1 content hinfo
  · exact handleGoogleCallback_first_lookup env r w w1 content hinfo
  · exact handleOIDCCallback_first_lookup env r w w1 content hinfo

/-- C10 (as amended): let a getUserInfo run receive an identity payload (the
user-info body for GitHub and Google, the verified claims for OIDC). If the
payload is malformed for the keying field (GitHub: login; Google and OIDC:
email), that is, it is not valid JSON, or is neither an object nor null, or
holds the keying field with a value that is neither a string nor null, then
getUserInfo returns an error and the callback answers "not configured" without
any call to the user store. If the keying field is absent and the payload
decodes without error, then getUserInfo succeeds with the empty string as the
identifier and the callback proceeds to the user store with it: the first event
after the lookup is GetUser of the empty username. -/
theorem handleCallback_keying_field (p : Provider) (env : Env σ) (r : Request) (w : World σ)
    (pl : Payload)
    (hrecv : receivedPayload (newEvents w (getUserInfo p env r.state r.code w).2) = some pl) :
    (malformedField (keyOf p) pl = true →
      (∃ u err, (getUserInfo p env r.state r.code w).1 = .ret (u, some err)) ∧
      (newEvents w (handleCallback p env r w).2).countP Event.isUserStoreCall = 0 ∧
      (newEvents w (handleCallback p env r w).2).filter Event.isResponse =
        [Event.notConfigured]) ∧
    (absentField (keyOf p) pl = true →
      (unmarshalOAuthUser pl (OAuthUser.mk "" "" "")).2 = none →
      ∃ u rest, (getUserInfo p env r.state r.code w).1 = .ret (some u, none) ∧
        usernameOf p u = "" ∧
        newEvents (getUserInfo p env r.state r.code w).2 (handleCallback p env r w).2 =
          Event.getUser ""
            (env.getUser "" (getUserInfo p env r.state r.code w).2.ext).1.toOption :: rest) := by
  constructor
  · intro hbad
    obtain ⟨u, err, h⟩ := getUserInfo_malformed p env r.state r.code w pl hrecv hbad
    obtain ⟨added, htr, hadd⟩ := getUserInfo_lookup_phase p env r.state r.code w
    obtain ⟨hc1, -, -, -, -⟩ := countP_lookup added hadd
    have hf := filter_response_lookup added hadd
    have hnew : newEvents w (handleCallback p env r w).2 = added ++ [Event.notConfigured] :=
      newEvents_of_append _ _ _ (by
        rw [handleCallback_of_error p env r w u err h]
        simp only [handleOauthNotConfigured, World.emit]
        rw [htr, List.append_assoc])
    refine ⟨⟨u, err, h⟩, ?_, ?_⟩
    · rw [hnew, List.countP_append, hc1]
      simp [Event.isUserStoreCall]
    · rw [hnew, List.filter_append, hf]
      simp [Event.isResponse]
  · intro habs hok
    obtain ⟨u, h1, h2⟩ := getUserInfo_decoded p env r.state r.code w pl hrecv hok
    have hname : usernameOf p u = "" := by
      rw [h2, unmarshal_absent p pl _ habs]
      cases p <;> rfl
    obtain ⟨rest, hrest⟩ := handleCallback_first_lookup p env r w
      (getUserInfo p env r.state r.code w).2 u (Prod.ext h1 rfl)
    rw [hname] at hrest
    exact ⟨u, rest, h1, hname, hrest⟩

/-- Two concrete GitHub callbacks: a user-info body with a numeric login makes the
lookup fail and the user store is not called; a body without a login member
decodes, the identifier is empty and the user store is asked for the empty
username. -/
theorem handleCallback_keying_field_witness :
    (receivedPayload (newEvents (configuredWorld [])
        (getUserInfo .github (scripted numericLoginScript) "S1" "C1" (configuredWorld [])).2) =
      some (.object [("login", .number 1001)]) ∧
      malformedField (keyOf .github) (.object [("login", .number 1001)]) = true ∧
      (newEvents (configuredWorld [])
        (handleCallback .github (scripted numericLoginScript) (Request.mk "S1" "C1")
          (configuredWorld [])).2).countP Event.isUserStoreCall = 0 ∧
      (newEvents (configuredWorld [])
        (handleCallback .github (scripted numericLoginScript) (Request.mk "S1" "C1")
          (configuredWorld [])).2).filter Event.isResponse = [Event.notConfigured]) ∧
    (receivedPayload (newEvents (configuredWorld [])
        (getUserInfo .github (scripted badCredentialsScript) "S1" "C1" (configuredWorld [])).2) =
      some badCredentialsScript.userInfoBody ∧
      absentField (keyOf .github) badCredentialsScript.userInfoBody = true ∧
      (unmarshalOAuthUser badCredentialsScript.userInfoBody (OAuthUser.mk "" "" "")).2 = none ∧
      ∃ u rest,
        (getUserInfo .github (scripted badCredentialsScript) "S1" "C1" (configuredWorld [])).1 =
          .ret (some u, none) ∧
        usernameOf .github u = "" ∧
        newEvents
            (getUserInfo .github (scripted badCredentialsScript) "S1" "C1"
              (configuredWorld [])).2
            (handleCallback .github (scripted badCredentialsScript) (Request.mk "S1" "C1")
              (configuredWorld [])).2 =
          Event.getUser ""
            ((scripted badCredentialsScript).getUser ""
              (getUserInfo .github (scripted badCredentialsScript) "S1" "C1"
                (configuredWorld [])).2.ext).1.toOption :: rest) :=
  ⟨⟨by decide, by decide,
      ((handleCallback_keying_field .github (scripted numericLoginScript) (Request.mk "S1" "C1")
        (configuredWorld []) (.object [("login", .number 1001)]) (by decide)).1 (by decide)).2⟩,
    ⟨by decide, by decide, by decide,
      (handleCallback_keying_field .github (scripted badCredentialsScript) (Request.mk "S1" "C1")
        (configuredWorld []) badCredentialsScript.userInfoBody (by decide)).2
        (by decide) (by decide)⟩⟩

/-- C10 (counterexample): the user-info endpoint answers with a JSON object that
has no `login` member. getGithubUserInfo does not fail: it returns an identity
whose Login is the empty string, and the callback proceeds to the user store
with the empty username: it looks it up, creates the account and looks it up
again. -/
theorem handleCallback_absent_key_accepted :
    absentField (keyOf .github) badCredentialsScript.userInfoBody = true ∧
    (getUserInfo .github (scripted badCredentialsScript) "S1" "C1" (configuredWorld [])).1 =
      .ret (some (OAuthUser.mk "" "" happyScript.tokenJSON), none) ∧
    newEvents
        (getUserInfo .github (scripted badCredentialsScript) "S1" "C1" (configuredWorld [])).2
        (handleCallback .github (scripted badCredentialsScript) (Request.mk "S1" "C1")
          (configuredWorld [])).2 =
      [Event.getUser "" none, Event.addUser "" true none,
        Event.getUser "" (some (HostUser.mk "" false false)), Event.userNotAllowed] := by
  decide

theorem getGithubUserInfo_attaches_token (env : Env σ) (state code : String) (w : World σ)
    (u : OAuthUser) (h : (getGithubUserInfo env state code w).1 = .ret (some u, none)) :
    ∃ cfg token, (invalidOauthState env state w).2.auth_provider = some cfg ∧
      (env.exchange cfg code (invalidOauthState env state w).2.ext).1 = .ret (.ok token) ∧
      env.marshalToken token = .ok u.AccessToken := by
  revert h
  unfold getGithubUserInfo
  rcases invalidOauthState env state w with ⟨b, w1⟩
  rcases w1 with ⟨x, ap, ov, tr⟩
  cases b <;> cases ap <;>
  · simp only [exchange, httpDo, readAll, World.emit, World.withExt]
    repeat' split
    all_goals (try simp only [Prod.mk.injEq] at *)
    all_goals (try casesm* _ ∧ _)
    all_goals subst_vars
    all_goals simp_all
    all_goals
      intro h
      subst h
      rfl

theorem getGoogleUserInfo_attaches_token (env : Env σ) (state code : String) (w : World σ)
    (u : OAuthUser) (h : (getGoogleUserInfo env state code w).1 = .ret (some u, none)) :
    ∃ cfg token, (invalidOauthState env state w).2.auth_provider = some cfg ∧
      (env.exchange cfg code (invalidOauthState env state w).2.ext).1 = .ret (.ok token) ∧
      env.marshalToken token = .ok u.AccessToken := by
  revert h
  unfold getGoogleUserInfo
  rcases invalidOauthState env state w with ⟨b, w1⟩
  rcases w1 with ⟨x, ap, ov, tr⟩
  cases b <;> cases ap <;>
  · simp only [exchange, httpDo, readAll, World.emit, World.withExt]
    repeat' split
    all_goals (try simp only [Prod.mk.injEq] at *)
    all_goals (try casesm* _ ∧ _)
    all_goals subst_vars
    all_goals simp_all
    all_goals
      intro h
      subst h
      rfl

theorem getOIDCUserInfo_error_identity (env : Env σ) (state code : String) (w : World σ)
    (u : OAuthUser) (err : String)
    (h : (getOIDCUserInfo env state code w).1 = .ret (some u, some err)) :
    ∃ pl e, receivedPayload (newEvents w (getOIDCUserInfo env state code w).2) = some pl ∧
      unmarshalOAuthUser pl (OAuthUser.mk "" "" "") = (u, some e) := by
  have htr := invalidOauthState_trace env state w
  have hsc := receivedPayload_stateCheck env state w.ext
  revert h
  unfold getOIDCUserInfo
  rcases hi : invalidOauthState env state w with ⟨b, w1⟩
  rw [hi] at htr
  rcases w1 with ⟨x, ap, ov, tr⟩
  simp only at htr
  subst htr
  cases b <;> cases ap <;> cases ov <;>
  · simp only [exchange, verifyIDToken, claims, World.emit, World.withExt, newEvents]
    repeat' split
    all_goals (try simp only [Prod.mk.injEq] at *)
    all_goals (try casesm* _ ∧ _)
    all_goals subst_vars
    all_goals (try simp only [Prod.mk.injEq] at *)
    all_goals (try casesm* _ ∧ _)
    all_goals subst_vars
    all_goals
      simp_all [Event.identityPayload, receivedPayload_append, receivedPayload_cons,
        receivedPayload_nil]

/-- C6 (failing input): the state is valid, the exchange succeeds, the id token
verifies, and its claims hold a string `email` and a numeric `login`. Claim
decoding fails, and getOIDCUserInfo returns the error together with a non-nil,
partially populated identity (Email set, Login empty). -/
theorem getOIDCUserInfo_error_with_identity :
    (getOIDCUserInfo (scripted numericLoginClaimScript) "S1" "C1" (configuredWorld [])).1 =
      .ret (some (OAuthUser.mk "" "bob@example.com" ""),
        some ("error when claiming OIDCUser: \"json: cannot unmarshal number into Go struct " ++
          "field OAuthUser.login of type string\"")) := by
  decide

/-- C9 (failing input): the state is valid, the exchange yields a token whose JSON
serialization is not empty, the id token verifies and its claims decode.
getOIDCUserInfo returns successfully, and the AccessToken of the identity is the
empty string, not the serialization of the token. -/
theorem getOIDCUserInfo_drops_token :
    (scripted happyScript).marshalToken (Token.mk "gho_token" false (some "raw.id.token")) =
      .ok happyScript.tokenJSON ∧
    happyScript.tokenJSON ≠ "" ∧
    (exchange (scripted happyScript) "C1"
        (invalidOauthState (scripted happyScript) "S1" (configuredWorld [])).2).1 =
      .ret (.ok (Token.mk "gho_token" false (some "raw.id.token"))) ∧
    (getOIDCUserInfo (scripted happyScript) "S1" "C1" (configuredWorld [])).1 =
      .ret (some (OAuthUser.mk "" "alice@example.com" ""), none) := by
  refine ⟨rfl, by decide, rfl, by decide⟩

end Netmaker.Auth
